import Mathlib

/-!
Verification of the StockRevenueLab dashboard repository.

The repository is a set of Streamlit pages (`app.py`,
`pages/probability.py`, `pages/11_app_high.py`, `pages/timing_lab.py`)
that build parameterized SQL strings, run them against a Postgres
database, and render the results.  This file gives a shallow embedding
of the SQL expressions and the small amount of Python post-processing
those pages contain, and proves or refutes the frozen claims about
them.  SQL `numeric` values are embedded as rationals (ℚ); SQL `NULL`
for a possibly-absent value is embedded as `Option`.
-/

namespace StockLab

/-! ## Close-price bucketing rule (app.py, fetch_heatmap_data lines 151-201)

The CASE expression maps the annual return percentage
`((year_close - year_open) / year_open) * 100` to a labelled bin and a
parallel integer `bin_order`.  Both CASE cascades are transcribed
branch for branch. -/

/-- The `return_bin` CASE expression of `fetch_heatmap_data`
(`app.py` lines 151-176), applied to the annual return percentage. -/
def return_bin (r : ℚ) : String :=
  if r ≤ -100 then "00. 下跌-100%以下"
  else if r < -90 then "01. 下跌-100%至-90%"
  else if r < -80 then "02. 下跌-90%至-80%"
  else if r < -70 then "03. 下跌-80%至-70%"
  else if r < -60 then "04. 下跌-70%至-60%"
  else if r < -50 then "05. 下跌-60%至-50%"
  else if r < -40 then "06. 下跌-50%至-40%"
  else if r < -30 then "07. 下跌-40%至-30%"
  else if r < -20 then "08. 下跌-30%至-20%"
  else if r < -10 then "09. 下跌-20%至-10%"
  else if r < 0 then "10. 下跌-10%至0%"
  else if r < 100 then "11. 上漲0-100%"
  else if r < 200 then "12. 上漲100-200%"
  else if r < 300 then "13. 上漲200-300%"
  else if r < 400 then "14. 上漲300-400%"
  else if r < 500 then "15. 上漲400-500%"
  else if r < 600 then "16. 上漲500-600%"
  else if r < 700 then "17. 上漲600-700%"
  else if r < 800 then "18. 上漲700-800%"
  else if r < 900 then "19. 上漲800-900%"
  else if r < 1000 then "20. 上漲900-1000%"
  else "21. 上漲1000%以上"

/-- The parallel `bin_order` CASE expression of `fetch_heatmap_data`
(`app.py` lines 178-201). -/
def bin_order (r : ℚ) : ℕ :=
  if r ≤ -100 then 0
  else if r < -90 then 1
  else if r < -80 then 2
  else if r < -70 then 3
  else if r < -60 then 4
  else if r < -50 then 5
  else if r < -40 then 6
  else if r < -30 then 7
  else if r < -20 then 8
  else if r < -10 then 9
  else if r < 0 then 10
  else if r < 100 then 11
  else if r < 200 then 12
  else if r < 300 then 13
  else if r < 400 then 14
  else if r < 500 then 15
  else if r < 600 then 16
  else if r < 700 then 17
  else if r < 800 then 18
  else if r < 900 then 19
  else if r < 1000 then 20
  else 21

/-- The 22 bin labels of the close-price bucketing rule, in order. -/
def binLabels : List String :=
  ["00. 下跌-100%以下", "01. 下跌-100%至-90%", "02. 下跌-90%至-80%",
   "03. 下跌-80%至-70%", "04. 下跌-70%至-60%", "05. 下跌-60%至-50%",
   "06. 下跌-50%至-40%", "07. 下跌-40%至-30%", "08. 下跌-30%至-20%",
   "09. 下跌-20%至-10%", "10. 下跌-10%至0%", "11. 上漲0-100%",
   "12. 上漲100-200%", "13. 上漲200-300%", "14. 上漲300-400%",
   "15. 上漲400-500%", "16. 上漲500-600%", "17. 上漲600-700%",
   "18. 上漲700-800%", "19. 上漲800-900%", "20. 上漲900-1000%",
   "21. 上漲1000%以上"]

/-- The interval of returns belonging to bin `i`, read off the fixed
table of the claim: one bin for returns at or below -100, ten 10-wide
bins covering -100 to 0, ten 100-wide bins covering 0 to 1000, and one
bin for returns at or above 1000. -/
def inBin (i : ℕ) (r : ℚ) : Prop :=
  if i = 0 then r ≤ -100
  else if i = 1 then -100 < r ∧ r < -90
  else if i = 2 then -90 ≤ r ∧ r < -80
  else if i = 3 then -80 ≤ r ∧ r < -70
  else if i = 4 then -70 ≤ r ∧ r < -60
  else if i = 5 then -60 ≤ r ∧ r < -50
  else if i = 6 then -50 ≤ r ∧ r < -40
  else if i = 7 then -40 ≤ r ∧ r < -30
  else if i = 8 then -30 ≤ r ∧ r < -20
  else if i = 9 then -20 ≤ r ∧ r < -10
  else if i = 10 then -10 ≤ r ∧ r < 0
  else if i = 11 then 0 ≤ r ∧ r < 100
  else if i = 12 then 100 ≤ r ∧ r < 200
  else if i = 13 then 200 ≤ r ∧ r < 300
  else if i = 14 then 300 ≤ r ∧ r < 400
  else if i = 15 then 400 ≤ r ∧ r < 500
  else if i = 16 then 500 ≤ r ∧ r < 600
  else if i = 17 then 600 ≤ r ∧ r < 700
  else if i = 18 then 700 ≤ r ∧ r < 800
  else if i = 19 then 800 ≤ r ∧ r < 900
  else if i = 20 then 900 ≤ r ∧ r < 1000
  else if i = 21 then 1000 ≤ r
  else False

/-- Numeric value of the two leading digits of a bin label. -/
def labelNum (s : String) : ℕ :=
  match s.data with
  | c₁ :: c₂ :: _ => 10 * (c₁.toNat - 48) + (c₂.toNat - 48)
  | _ => 0


/-! ## High-price bucketing rule (pages/11_app_high.py, lines 130-157)

The high-price variant computes `((year_high - year_open) / year_open)
* 100` and has only eleven upward bins: its first CASE branch accepts
every return below 100. -/

/-- The `return_bin` CASE expression of `fetch_heatmap_data_high`
(`pages/11_app_high.py` lines 130-143). -/
def return_bin_high (r : ℚ) : String :=
  if r < 100 then "01. 上漲0-100%"
  else if r < 200 then "02. 上漲100-200%"
  else if r < 300 then "03. 上漲200-300%"
  else if r < 400 then "04. 上漲300-400%"
  else if r < 500 then "05. 上漲400-500%"
  else if r < 600 then "06. 上漲500-600%"
  else if r < 700 then "07. 上漲600-700%"
  else if r < 800 then "08. 上漲700-800%"
  else if r < 900 then "09. 上漲800-900%"
  else if r < 1000 then "10. 上漲900-1000%"
  else "11. 上漲1000%以上"

/-- The parallel `bin_order` CASE expression of `fetch_heatmap_data_high`
(`pages/11_app_high.py` lines 145-157). -/
def bin_order_high (r : ℚ) : ℕ :=
  if r < 100 then 1
  else if r < 200 then 2
  else if r < 300 then 3
  else if r < 400 then 4
  else if r < 500 then 5
  else if r < 600 then 6
  else if r < 700 then 7
  else if r < 800 then 8
  else if r < 900 then 9
  else if r < 1000 then 10
  else 11

/-- The 11 bin labels of the high-price bucketing rule, in order. -/
def binLabelsHigh : List String :=
  ["01. 上漲0-100%", "02. 上漲100-200%", "03. 上漲200-300%",
   "04. 上漲300-400%", "05. 上漲400-500%", "06. 上漲500-600%",
   "07. 上漲600-700%", "08. 上漲700-800%", "09. 上漲800-900%",
   "10. 上漲900-1000%", "11. 上漲1000%以上"]

/-- A row of the `stock_annual_k` table.  Price columns are nullable. -/
structure AnnualRow where
  symbol : String
  year : String
  year_open : Option ℚ
  year_close : Option ℚ
  year_high : Option ℚ
deriving DecidableEq

/-- The WHERE filter of the main-page `annual_bins` CTE
(`app.py` line 203): only the year is constrained. -/
def appRowFilter (y : String) (t : AnnualRow) : Bool :=
  t.year == y

/-- The WHERE filter of the high-price `annual_bins` CTE
(`pages/11_app_high.py` lines 159-162): the year is constrained and
rows with NULL `year_open`/`year_high` or non-positive `year_open` are
dropped. -/
def highRowFilter (y : String) (t : AnnualRow) : Bool :=
  t.year == y && t.year_open.isSome && t.year_high.isSome &&
    decide (0 < t.year_open.getD 0)

/-! ## Annual-return expressions of every query (claim C6)

One definition per source site; all queries build the return as
`((price - year_open) / year_open) * 100` with the price column noted
in each doc comment. -/

/-- `app.py` line 150 (`fetch_heatmap_data`), price = `year_close`. -/
def heatmapAnnualReturn (o p : ℚ) : ℚ := (p - o) / o * 100

/-- `app.py` line 252 (`fetch_stat_summary`), price = `year_close`. -/
def statSummaryAnnualReturn (o p : ℚ) : ℚ := (p - o) / o * 100

/-- `app.py` line 672 (`detail_query`), price = `year_close`. -/
def detailAnnualRet (o p : ℚ) : ℚ := (p - o) / o * 100

/-- `pages/probability.py` line 71 (`fetch_prob_data`), price = the
`price_field` parameter, `year_close` by default. -/
def probPerfRet (o p : ℚ) : ℚ := (p - o) / o * 100

/-- `pages/probability.py` line 124 (`fetch_prob_data_alt`), price =
the `price_field` parameter. -/
def probAltPerfRet (o p : ℚ) : ℚ := (p - o) / o * 100

/-- `pages/probability.py` line 40 (`fetch_multi_year_data`), price =
the `price_field` parameter. -/
def probMultiYearReturn (o p : ℚ) : ℚ := (p - o) / o * 100

/-- `pages/probability.py` line 557 (detail list query), price = the
`price_field` parameter. -/
def probDetailReturn (o p : ℚ) : ℚ := (p - o) / o * 100

/-- `pages/11_app_high.py` line 129 (`fetch_heatmap_data_high`),
price = `year_high`. -/
def highAnnualMaxReturn (o p : ℚ) : ℚ := (p - o) / o * 100

/-- `pages/11_app_high.py` line 208 (`fetch_stat_summary_high`),
price = `year_high`. -/
def highSummaryMaxReturn (o p : ℚ) : ℚ := (p - o) / o * 100

/-! ## Percent encoding (urllib.parse.quote / quote_plus)

`quote` keeps ASCII letters, digits, `_.-~` and, by its default
`safe` argument, `/`; every other UTF-8 byte becomes `%XY` with
uppercase hex.  `quote_plus` additionally encodes `/` and turns a
space into `+`. -/

/-- UTF-8 bytes of a character. -/
def utf8Bytes (c : Char) : List ℕ :=
  if c.toNat < 128 then [c.toNat]
  else if c.toNat < 2048 then [192 + c.toNat / 64, 128 + c.toNat % 64]
  else if c.toNat < 65536 then
    [224 + c.toNat / 4096, 128 + c.toNat / 64 % 64, 128 + c.toNat % 64]
  else
    [240 + c.toNat / 262144, 128 + c.toNat / 4096 % 64, 128 + c.toNat / 64 % 64,
     128 + c.toNat % 64]

/-- Uppercase hex digit of a value below 16. -/
def hexDigit (n : ℕ) : Char := if n < 10 then Char.ofNat (48 + n) else Char.ofNat (55 + n)

/-- The bytes urllib never encodes: ASCII letters, digits, `_.-~`. -/
def isAlwaysSafe (b : ℕ) : Bool :=
  (65 ≤ b && b ≤ 90) || (97 ≤ b && b ≤ 122) || (48 ≤ b && b ≤ 57) ||
    b == 95 || b == 46 || b == 45 || b == 126

/-- Percent-encoding of one byte; `safeSlash` keeps `/` unencoded. -/
def encByte (safeSlash : Bool) (b : ℕ) : List Char :=
  if isAlwaysSafe b then [Char.ofNat b]
  else if safeSlash && b == 47 then [Char.ofNat b]
  else [Char.ofNat 37, hexDigit (b / 16), hexDigit (b % 16)]

/-- `urllib.parse.quote` with its default `safe` argument. -/
def quote (s : String) : String :=
  ⟨(s.data.map (fun c => ((utf8Bytes c).map (encByte true)).flatten)).flatten⟩

/-- `urllib.parse.quote_plus`: spaces become `+`, `/` is encoded. -/
def quote_plus (s : String) : String :=
  ⟨(s.data.map (fun c =>
      if c = Char.ofNat 32 then [Char.ofNat 43]
      else ((utf8Bytes c).map (encByte false)).flatten)).flatten⟩

/-! ## Database connection (get_engine, app.py lines 11-22; identical
copies in the three page files) -/

/-- The configuration store (`st.secrets`): a key that raises on
lookup is `none`. -/
structure Secrets where
  DB_PASSWORD : Option String
  PROJECT_REF : Option String
  POOLER_HOST : Option String

/-- Outcome of a page-script step that may halt: `st.stop()` after
`st.error` is `halted` with the error text. -/
inductive EngineResult where
  | engine (conn : String)
  | halted (msg : String)
deriving DecidableEq

/-- The error text shown by `get_engine` on any failure. -/
def connFailMsg : String := "❌ 資料庫連線失敗，請檢查 Streamlit Secrets 設定。"

/-- The connection string built by `get_engine` (`app.py` line 18). -/
def connection_string (pw pr ph : String) : String :=
  "postgresql://postgres." ++ pr ++ ":" ++ quote_plus pw ++ "@" ++ ph ++
    ":5432/postgres?sslmode=require"

/-- `get_engine` (`app.py` lines 11-22): reads three secrets, builds
the connection string, and calls `create_engine` (modelled as a
function that may fail, returning `none`); any failure is caught by
the single `except` which shows `connFailMsg` and stops the script. -/
def get_engine (s : Secrets) (create_engine : String → Option String) : EngineResult :=
  match s.DB_PASSWORD with
  | none => .halted connFailMsg
  | some pw =>
    match s.PROJECT_REF with
    | none => .halted connFailMsg
    | some pr =>
      match s.POOLER_HOST with
      | none => .halted connFailMsg
      | some ph =>
        match create_engine (connection_string pw pr ph) with
        | none => .halted connFailMsg
        | some e => .engine e


/-! ## Outbound AI-chat links (claim C7)

One definition per `st.link_button` URL aimed at an AI chat site, as a
function of the generated prompt text. -/

/-- `app.py` line 629: the ChatGPT button URL (no query parameter; the
`encoded_p` value computed on line 626 is not used in it). -/
def appChatgptUrl (p : String) : String := "https://chatgpt.com/"

/-- `app.py` line 637: the Claude button URL. -/
def appClaudeUrl (p : String) : String := "https://claude.ai/new?q=" ++ quote p

/-- `pages/probability.py` line 447: the ChatGPT button URL. -/
def probChatgptUrl (p : String) : String := "https://chatgpt.com/?q=" ++ quote p

/-- `pages/probability.py` line 453: the DeepSeek button URL. -/
def probDeepseekUrl (p : String) : String := "https://chat.deepseek.com/"

/-- `pages/11_app_high.py` line 425: the ChatGPT button URL. -/
def highChatgptUrl (p : String) : String := "https://chatgpt.com/"

/-- `pages/11_app_high.py` line 427: the Claude button URL. -/
def highClaudeUrl (p : String) : String := "https://claude.ai/new"

/-- `pages/11_app_high.py` line 429: the DeepSeek button URL. -/
def highDeepseekUrl (p : String) : String := "https://chat.deepseek.com/"

/-- `pages/timing_lab.py` line 661: the ChatGPT button URL. -/
def timingChatgptUrl (p : String) : String := "https://chatgpt.com/?q=" ++ quote p

/-- Whether a URL has a query string at all. -/
def hasQueryParam (url : String) : Bool := url.data.contains (Char.ofNat 63)

/-- Characters that may appear inside a single URL-encoded query value:
the always-safe bytes, `/`, and the `%` of an escape. -/
def isQuerySafeChar (c : Char) : Bool :=
  isAlwaysSafe c.toNat || c == Char.ofNat 47 || c == Char.ofNat 37

/-! ## Database round trips per page view (claim C4) -/

/-- One SQL round trip of a page script, with the query site name and
whether the result is key-cached (`@st.cache_data(ttl=3600)`). -/
structure DbCall where
  name : String
  cached : Bool
deriving DecidableEq

/-- The round trips of one `app.py` page view (happy path, default
widget values, cold cache), in script order: `get_latest_data_date`
(line 61, cached), `fetch_heatmap_data` (line 463, cached),
`fetch_stat_summary` (line 464, cached), and the `detail_query` run
directly on lines 728-729 with no cache decorator. -/
def appPageCalls : List DbCall :=
  [⟨"get_latest_data_date", true⟩, ⟨"fetch_heatmap_data", true⟩,
   ⟨"fetch_stat_summary", true⟩, ⟨"detail_query", false⟩]

/-- The round trips of one `pages/probability.py` page view (happy
path, default options, cold cache): `fetch_prob_data` (line 259,
cached) and the uncached detail-list query of lines 543-572. -/
def probabilityPageCalls : List DbCall :=
  [⟨"fetch_prob_data", true⟩, ⟨"detail_query", false⟩]

/-- The round trips of one `pages/11_app_high.py` page view:
`fetch_heatmap_data_high` (line 290) and `fetch_stat_summary_high`
(line 291), both cached. -/
def highPageCalls : List DbCall :=
  [⟨"fetch_heatmap_data_high", true⟩, ⟨"fetch_stat_summary_high", true⟩]

/-- The round trips of one `pages/timing_lab.py` page view:
`fetch_timing_data` (line 287), cached. -/
def timingPageCalls : List DbCall :=
  [⟨"fetch_timing_data", true⟩]

/-- TTL, in seconds, of every `st.cache_data` decorator in the repo. -/
def cacheTTLSeconds : ℕ := 3600


/-- SQL LIKE over byte strings, with explicit fuel so that it is
structural: byte 95 `_` matches any one byte, byte 37 `%` any
sequence. -/
def likeAuxB : ℕ → List ℕ → List ℕ → Bool
  | 0, _, _ => false
  | _ + 1, [], [] => true
  | _ + 1, [], _ :: _ => false
  | f + 1, p :: ps, [] => if p = 37 then likeAuxB f ps [] else false
  | f + 1, p :: ps, c :: cs =>
    if p = 37 then likeAuxB f ps (c :: cs) || likeAuxB f (p :: ps) cs
    else if p = 95 then likeAuxB f ps cs
    else decide (p = c) && likeAuxB f ps cs

/-- SQL `LIKE`; the fuel bounds the recursion depth. -/
def likeMatchB (pat s : List ℕ) : Bool := likeAuxB (pat.length + s.length + 1) pat s

/-- Byte-wise lexicographic `<` (SQL C collation). -/
def lexLtB : List ℕ → List ℕ → Bool
  | [], [] => false
  | [], _ :: _ => true
  | _ :: _, [] => false
  | a :: as, b :: bs => decide (a < b) || (decide (a = b) && lexLtB as bs)

/-- Byte-wise lexicographic `<=`. -/
def lexLeB (a b : List ℕ) : Bool := lexLtB a b || a == b

/-- Zero-padded two-digit month, as ASCII bytes. -/
def pad2B (m : ℕ) : List ℕ := if m < 10 then [48, 48 + m] else [48 + m / 10, 48 + m % 10]

/-- Three ASCII digit bytes of a three-digit number. -/
def nat3B (y : ℕ) : List ℕ := [48 + y / 100 % 10, 48 + y / 10 % 10, 48 + y % 10]

/-- A report month `yyy_mm` under the claim's encoding assumption:
three-digit year offset, underscore (byte 95), zero-padded month. -/
def encodeMonthB (y m : ℕ) : List ℕ := nat3B y ++ [95] ++ pad2B m

/-- The f-string LIKE pattern `'{minguo_year}_%'`. -/
def yearPatB (Y : ℕ) : List ℕ := nat3B Y ++ [95, 37]

/-- The report-month window predicate of `app.py` lines 210-213:
equal to the previous year's month 12, or LIKE `'{Y}_%'`, below
`'{Y}_12'`, and of length at most 7. -/
def appMonthWindow (Y : ℕ) (s : List ℕ) : Bool :=
  s == encodeMonthB (Y - 1) 12 ||
    (likeMatchB (yearPatB Y) s && lexLtB s (encodeMonthB Y 12) && decide (s.length ≤ 7))

/-- The report-month window predicate of `pages/probability.py` lines
62-65: equal to the previous year's month 12, or LIKE `'{Y}_%'` and at
most `'{Y}_11'`. -/
def probMonthWindow (Y : ℕ) (s : List ℕ) : Bool :=
  s == encodeMonthB (Y - 1) 12 ||
    (likeMatchB (yearPatB Y) s && lexLeB s (encodeMonthB Y 11))



/-! ## Per-bucket statistics (claims C2, C3, C8)

The metric values of one bucket are a `List ℚ`.  SQL sorts inside
`WITHIN GROUP (ORDER BY ...)` and pandas sorts inside `median`; both
are modelled with the same insertion sort.  `STDDEV` takes the exact
square root of the sample variance; the square root, irrational in
general, is passed as an explicit function `sq : ℚ → ℚ` shared by both
sides of every comparison, which only requires it to be a function. -/

/-- Insert into a sorted list. -/
def insortQ (x : ℚ) : List ℚ → List ℚ
  | [] => [x]
  | y :: ys => if x ≤ y then x :: y :: ys else y :: insortQ x ys

/-- Insertion sort (the `ORDER BY` of SQL, the sort inside pandas
`median`). -/
def sortQ : List ℚ → List ℚ
  | [] => []
  | x :: xs => insortQ x (sortQ xs)

/-- Linear interpolation into a list at (0-based) fractional rank
`rn`, as `percentile_cont` does. -/
def interpAt (s : List ℚ) (rn : ℚ) : ℚ :=
  s.getD ⌊rn⌋.toNat 0 +
    (rn - (⌊rn⌋ : ℚ)) *
      (s.getD (⌊rn⌋.toNat + 1) (s.getD ⌊rn⌋.toNat 0) - s.getD ⌊rn⌋.toNat 0)

/-- Postgres `percentile_cont(p) WITHIN GROUP (ORDER BY x)`: sort, take
the value at fractional rank `p * (n - 1)`, interpolating linearly. -/
def percentileCont (p : ℚ) (xs : List ℚ) : ℚ :=
  interpAt (sortQ xs) (p * ((xs.length : ℚ) - 1))

/-- SQL `AVG` / pandas `mean`. -/
def mean (xs : List ℚ) : ℚ := xs.sum / (xs.length : ℚ)

/-- The sample variance as SQL `STDDEV` accumulates it:
`(Σx² - (Σx)²/n) / (n - 1)`. -/
def sqlVar (xs : List ℚ) : ℚ :=
  ((xs.map (fun x => x ^ 2)).sum - xs.sum ^ 2 / (xs.length : ℚ)) / ((xs.length : ℚ) - 1)

/-- SQL `STDDEV` (and pandas `std`, both sample standard deviation,
`ddof = 1`): square root of the sample variance. -/
def STDDEV (sq : ℚ → ℚ) (xs : List ℚ) : ℚ := sq (sqlVar xs)

/-- The textbook sample variance: `Σ(x - x̄)² / (n - 1)`. -/
def sampleVar (xs : List ℚ) : ℚ :=
  (xs.map (fun x => (x - mean xs) ^ 2)).sum / ((xs.length : ℚ) - 1)

/-- The eight aggregation formulas the statistic selector can choose. -/
inductive AggChoice where
  | median
  | meanAgg
  | stddevAgg
  | cv
  | skew
  | kurt
  | iqr
  | posRate
deriving DecidableEq

/-- The statistic selector of `fetch_heatmap_data` (`app.py` lines
108-143): maps the Chinese method name to the aggregation formula of
its branch; the final `else` falls back to the mean. -/
def aggOf (s : String) : AggChoice :=
  if s = "中位數 (排除極端值)" then .median
  else if s = "平均值 (含極端值)" then .meanAgg
  else if s = "標準差 (波動程度)" then .stddevAgg
  else if s = "變異係數 (相對波動)" then .cv
  else if s = "偏度 (分佈形狀)" then .skew
  else if s = "峰度 (尾部厚度)" then .kurt
  else if s = "四分位距 (離散程度)" then .iqr
  else if s = "正樣本比例" then .posRate
  else .meanAgg

/-- The `stat_label` assigned next to each branch of
`fetch_heatmap_data` (`app.py` lines 108-143). -/
def statLabelOf (s : String) : String :=
  if s = "中位數 (排除極端值)" then "中位數"
  else if s = "平均值 (含極端值)" then "平均值"
  else if s = "標準差 (波動程度)" then "標準差"
  else if s = "變異係數 (相對波動)" then "變異係數%"
  else if s = "偏度 (分佈形狀)" then "偏度"
  else if s = "峰度 (尾部厚度)" then "峰度"
  else if s = "四分位距 (離散程度)" then "四分位距"
  else if s = "正樣本比例" then "正增長比例%"
  else "平均值"

/-- The statistic selector of `fetch_heatmap_data_high`
(`pages/11_app_high.py` lines 86-121), transcribed from that file. -/
def aggOfHigh (s : String) : AggChoice :=
  if s = "中位數 (排除極端值)" then .median
  else if s = "平均值 (含極端值)" then .meanAgg
  else if s = "標準差 (波動程度)" then .stddevAgg
  else if s = "變異係數 (相對波動)" then .cv
  else if s = "偏度 (分佈形狀)" then .skew
  else if s = "峰度 (尾部厚度)" then .kurt
  else if s = "四分位距 (離散程度)" then .iqr
  else if s = "正樣本比例" then .posRate
  else .meanAgg

/-- The `stat_label` of `fetch_heatmap_data_high`
(`pages/11_app_high.py` lines 86-121). -/
def statLabelOfHigh (s : String) : String :=
  if s = "中位數 (排除極端值)" then "中位數"
  else if s = "平均值 (含極端值)" then "平均值"
  else if s = "標準差 (波動程度)" then "標準差"
  else if s = "變異係數 (相對波動)" then "變異係數%"
  else if s = "偏度 (分佈形狀)" then "偏度"
  else if s = "峰度 (尾部厚度)" then "峰度"
  else if s = "四分位距 (離散程度)" then "四分位距"
  else if s = "正樣本比例" then "正增長比例%"
  else "平均值"

/-- Shape of the SQL scalar expressions the statistic selector
splices into its SELECT list: the metric column, literals, the scalar
operators the branches use, and the aggregate calls, kept as syntax so
that PostgreSQL's nesting rule can be stated about them. -/
inductive SqlExpr where
  | col
  | lit (q : ℚ)
  | sub (a b : SqlExpr)
  | mul (a b : SqlExpr)
  | div (a b : SqlExpr)
  | abs (a : SqlExpr)
  | pow (a b : SqlExpr)
  | nullif (a b : SqlExpr)
  | caseEq0 (c t e : SqlExpr)
  | caseGt0 (c t e : SqlExpr)
  | avg (a : SqlExpr)
  | stddev (a : SqlExpr)
  | sum (a : SqlExpr)
  | count
  | pct (p : ℚ)
deriving DecidableEq

/-- Whether an expression contains an aggregate call. -/
def hasAgg : SqlExpr → Bool
  | .col | .lit _ | .count => false
  | .sub a b | .mul a b | .div a b | .pow a b | .nullif a b => hasAgg a || hasAgg b
  | .abs a => hasAgg a
  | .caseEq0 c t e | .caseGt0 c t e => hasAgg c || hasAgg t || hasAgg e
  | .avg _ | .stddev _ | .sum _ | .pct _ => true

/-- PostgreSQL's rule for a simple GROUP BY select list: an aggregate
call whose argument contains another aggregate call is rejected at
parse time with "aggregate function calls cannot be nested"
(SQLSTATE 42803).  `pct` is `percentile_cont(p) WITHIN GROUP (ORDER BY
col)`, whose ordering operand is the plain column. -/
def aggNestOk : SqlExpr → Bool
  | .col | .lit _ | .count | .pct _ => true
  | .sub a b | .mul a b | .div a b | .pow a b | .nullif a b => aggNestOk a && aggNestOk b
  | .abs a => aggNestOk a
  | .caseEq0 c t e | .caseGt0 c t e => aggNestOk c && aggNestOk t && aggNestOk e
  | .avg a | .stddev a | .sum a => !hasAgg a

/-- The aggregation expression each branch of the selector emits
(`app.py` lines 108-143), as syntax.  The skewness branch is
`CASE WHEN STDDEV(x) = 0 THEN 0 ELSE AVG(POWER((x - AVG(x)) /
NULLIF(STDDEV(x), 0), 3)) END`, the kurtosis branch the same with
exponent 4 and `- 3`. -/
def aggExpr : AggChoice → SqlExpr
  | .median => .pct (1 / 2)
  | .meanAgg => .avg .col
  | .stddevAgg => .stddev .col
  | .cv => .caseEq0 (.avg .col) (.lit 0)
      (.mul (.div (.stddev .col) (.abs (.avg .col))) (.lit 100))
  | .skew => .caseEq0 (.stddev .col) (.lit 0)
      (.avg (.pow (.div (.sub .col (.avg .col)) (.nullif (.stddev .col) (.lit 0))) (.lit 3)))
  | .kurt => .caseEq0 (.stddev .col) (.lit 0)
      (.sub (.avg (.pow (.div (.sub .col (.avg .col)) (.nullif (.stddev .col) (.lit 0)))
        (.lit 4))) (.lit 3))
  | .iqr => .sub (.pct (3 / 4)) (.pct (1 / 4))
  | .posRate => .div (.mul (.sum (.caseGt0 .col (.lit 1) (.lit 0))) (.lit 100)) .count

/-- The value one bucket gets from the aggregation expression of a
branch (`app.py` lines 108-143): `percentile_cont(0.5)`; `AVG`;
`STDDEV`; the coefficient-of-variation CASE with its zero-mean guard;
the percentile difference; the positive-count ratio.  The skewness and
kurtosis branches yield `none`: their expressions nest aggregate calls
(`aggNestOk (aggExpr .skew) = false`), so PostgreSQL rejects the whole
query instead of producing a value. -/
def aggApply (a : AggChoice) (sq : ℚ → ℚ) (xs : List ℚ) : Option ℚ :=
  match a with
  | .median => some (percentileCont (1 / 2) xs)
  | .meanAgg => some (xs.sum / (xs.length : ℚ))
  | .stddevAgg => some (STDDEV sq xs)
  | .cv =>
    some (if xs.sum / (xs.length : ℚ) = 0 then 0
      else STDDEV sq xs / |xs.sum / (xs.length : ℚ)| * 100)
  | .skew => none
  | .kurt => none
  | .iqr => some (percentileCont (3 / 4) xs - percentileCont (1 / 4) xs)
  | .posRate =>
    some ((xs.map (fun x => if 0 < x then (1 : ℚ) else 0)).sum * 100 / (xs.length : ℚ))

/-- The classical median: middle element of the sorted values, or the
average of the two middle elements. -/
def specMedian (xs : List ℚ) : ℚ :=
  if (sortQ xs).length % 2 = 1 then (sortQ xs).getD ((sortQ xs).length / 2) 0
  else ((sortQ xs).getD ((sortQ xs).length / 2 - 1) 0 +
    (sortQ xs).getD ((sortQ xs).length / 2) 0) / 2

/-- Sample standard deviation, from the textbook variance. -/
def specStd (sq : ℚ → ℚ) (xs : List ℚ) : ℚ := sq (sampleVar xs)

/-- Coefficient of variation: stddev over the absolute mean, times
100. -/
def specCV (sq : ℚ → ℚ) (xs : List ℚ) : ℚ := specStd sq xs / |mean xs| * 100

/-- IQR: the 0.75 percentile minus the 0.25 percentile. -/
def specIQR (xs : List ℚ) : ℚ := percentileCont (3 / 4) xs - percentileCont (1 / 4) xs

/-- Percentage of strictly positive values. -/
def specPosRate (xs : List ℚ) : ℚ :=
  100 * ((xs.filter (fun x => decide (0 < x))).length : ℚ) / (xs.length : ℚ)


/-- The report-month window predicate of `pages/11_app_high.py` lines
167-170 (`fetch_heatmap_data_high`), transcribed from that file; its
text is identical to the `app.py` one. -/
def highMonthWindow (Y : ℕ) (s : List ℕ) : Bool :=
  s == encodeMonthB (Y - 1) 12 ||
    (likeMatchB (yearPatB Y) s && lexLtB s (encodeMonthB Y 12) && decide (s.length ≤ 7))


/-! ## Probability page: SQL aggregation vs Python alternate path
(claim C3; `pages/probability.py` lines 53-101 and 104-154)

Both paths group joined rows by the hit count and compute one output
row per group from the group's list of returns.  SQL `ROUND(x, 1)`
on `numeric` rounds half away from zero; Python `round(x, 1)` rounds
half to even (modelled on the exact rational value). -/

/-- Round to an integer, halves away from zero (SQL `numeric`). -/
def roundHalfAway (q : ℚ) : ℤ := if 0 ≤ q then ⌊q + 1 / 2⌋ else -⌊-q + 1 / 2⌋

/-- SQL `ROUND(x, 1)`. -/
def round1Sql (q : ℚ) : ℚ := (roundHalfAway (10 * q) : ℚ) / 10

/-- Round to an integer, halves to the even neighbour (Python). -/
def roundHalfEven (q : ℚ) : ℤ :=
  if q - ⌊q⌋ < 1 / 2 then ⌊q⌋
  else if 1 / 2 < q - ⌊q⌋ then ⌊q⌋ + 1
  else if 2 ∣ ⌊q⌋ then ⌊q⌋ else ⌊q⌋ + 1

/-- Python `round(x, 1)`. -/
def round1Py (q : ℚ) : ℚ := (roundHalfEven (10 * q) : ℚ) / 10

/-- A value sitting exactly on a 1-decimal rounding boundary. -/
def isTie (q : ℚ) : Prop := 10 * q - ⌊10 * q⌋ = 1 / 2

/-- SQL `MIN`. -/
def listMin : List ℚ → ℚ
  | [] => 0
  | x :: xs => xs.foldl min x

/-- SQL `MAX`. -/
def listMax : List ℚ → ℚ
  | [] => 0
  | x :: xs => xs.foldl max x

/-- One output row of either probability pipeline. -/
structure ProbRow where
  hits : ℕ
  stockCount : ℕ
  meanRet : ℚ
  medianRet : ℚ
  winRate : ℚ
  doubleRate : ℚ
  minRet : ℚ
  maxRet : ℚ
  stdRet : Option ℚ
deriving DecidableEq

/-- The row `fetch_prob_data`'s SQL SELECT (lines 79-91) produces for a
hits group: `COUNT(*)`, `ROUND(AVG, 1)`, `ROUND(PERCENTILE_CONT(0.5)
WITHIN GROUP, 1)`, the two `COUNT(*) FILTER` ratios, `ROUND(MIN, 1)`,
`ROUND(MAX, 1)`, and `ROUND(STDDEV, 1)` — `STDDEV` of a single row is
NULL, and `ROUND(NULL)` stays NULL. -/
def sqlProbRow (sq : ℚ → ℚ) (hits : ℕ) (rets : List ℚ) : ProbRow where
  hits := hits
  stockCount := rets.length
  meanRet := round1Sql (mean rets)
  medianRet := round1Sql (percentileCont (1 / 2) rets)
  winRate := round1Sql (((rets.filter (fun x => decide (20 < x))).length : ℚ) * 100 /
    (rets.length : ℚ))
  doubleRate := round1Sql (((rets.filter (fun x => decide (100 < x))).length : ℚ) * 100 /
    (rets.length : ℚ))
  minRet := round1Sql (listMin rets)
  maxRet := round1Sql (listMax rets)
  stdRet := if 2 ≤ rets.length then some (round1Sql (STDDEV sq rets)) else none

/-- The row `fetch_prob_data_alt` computes in Python for a hits group
(lines 139-154): `len`, `round(mean, 1)`, `round(median, 1)`, the two
comparison-sum ratios, `round(min, 1)`, `round(max, 1)`, and
`round(std, 1) if len > 1 else 0`; pandas `std` is the sample standard
deviation. -/
def altProbRow (sq : ℚ → ℚ) (hits : ℕ) (rets : List ℚ) : ProbRow where
  hits := hits
  stockCount := rets.length
  meanRet := round1Py (mean rets)
  medianRet := round1Py (specMedian rets)
  winRate := round1Py (((rets.filter (fun x => decide (20 < x))).length : ℚ) /
    (rets.length : ℚ) * 100)
  doubleRate := round1Py (((rets.filter (fun x => decide (100 < x))).length : ℚ) /
    (rets.length : ℚ) * 100)
  minRet := round1Py (listMin rets)
  maxRet := round1Py (listMax rets)
  stdRet := some (if 2 ≤ rets.length then round1Py (specStd sq rets) else 0)

/-! ## Facts and theorems -/

lemma insortQ_length (x : ℚ) (ys : List ℚ) : (insortQ x ys).length = ys.length + 1 := by
  induction ys with
  | nil => rfl
  | cons y ys ih =>
    unfold insortQ
    split_ifs
    · simp
    · simp [ih]

lemma sortQ_length (xs : List ℚ) : (sortQ xs).length = xs.length := by
  induction xs with
  | nil => rfl
  | cons x xs ih => unfold sortQ; rw [insortQ_length, ih]; rfl

lemma sum_map_sub_sq (xs : List ℚ) (c : ℚ) :
    (xs.map (fun x => (x - c) ^ 2)).sum =
      (xs.map (fun x => x ^ 2)).sum - 2 * c * xs.sum + xs.length * c ^ 2 := by
  induction xs with
  | nil => simp
  | cons a as ih =>
    simp only [List.map_cons, List.sum_cons, ih, List.length_cons]
    push_cast
    ring

lemma sqlVar_eq_sampleVar (xs : List ℚ) : sqlVar xs = sampleVar xs := by
  rcases eq_or_ne xs [] with rfl | hne
  · simp [sqlVar, sampleVar]
  · have hn : (xs.length : ℚ) ≠ 0 := by
      have := List.length_pos.mpr hne
      positivity
    have hnum : (xs.map (fun x => (x - mean xs) ^ 2)).sum =
        (xs.map (fun x => x ^ 2)).sum - xs.sum ^ 2 / (xs.length : ℚ) := by
      rw [sum_map_sub_sq]
      unfold mean
      field_simp
      ring
    unfold sqlVar sampleVar
    rw [hnum]

lemma sum_map_pos_indicator (xs : List ℚ) :
    (xs.map (fun x => if 0 < x then (1 : ℚ) else 0)).sum =
      ((xs.filter (fun x => decide (0 < x))).length : ℚ) := by
  induction xs with
  | nil => simp
  | cons a as ih =>
    by_cases ha : 0 < a
    · simp [List.filter_cons, ha, ih]
      ring
    · simp [List.filter_cons, ha, ih]

lemma percentileCont_half (xs : List ℚ) (hne : xs ≠ []) :
    percentileCont (1 / 2) xs = specMedian xs := by
  have hpos : 0 < xs.length := List.length_pos.mpr hne
  unfold percentileCont specMedian interpAt
  rw [sortQ_length]
  rcases Nat.even_or_odd xs.length with ⟨k, hk⟩ | ⟨k, hk⟩
  · -- even: length = k + k, k ≥ 1
    have hk1 : 1 ≤ k := by omega
    have hrn : (1 / 2 : ℚ) * ((xs.length : ℚ) - 1) = (k : ℚ) - 1 / 2 := by
      rw [hk]; push_cast; ring
    have hfl : ⌊(1 / 2 : ℚ) * ((xs.length : ℚ) - 1)⌋ = (k : ℤ) - 1 := by
      rw [hrn, Int.floor_eq_iff]
      constructor
      · push_cast; linarith
      · push_cast; linarith
    rw [hfl, hrn]
    have htn : ((k : ℤ) - 1).toNat = k - 1 := by omega
    rw [htn]
    have hmod : xs.length % 2 ≠ 1 := by omega
    rw [if_neg hmod]
    have hdiv : xs.length / 2 = k := by omega
    rw [hdiv]
    have hd : (k : ℚ) - 1 / 2 - ((k : ℤ) - 1 : ℤ) = 1 / 2 := by push_cast; ring
    rw [hd]
    have hsucc : k - 1 + 1 = k := by omega
    rw [hsucc]
    have hklt : k < (sortQ xs).length := by rw [sortQ_length]; omega
    rw [List.getD_eq_getElem _ _ hklt, List.getD_eq_getElem _ _ hklt]
    ring
  · -- odd: length = 2 * k + 1
    have hrn : (1 / 2 : ℚ) * ((xs.length : ℚ) - 1) = (k : ℚ) := by
      rw [hk]; push_cast; ring
    have hfl : ⌊(1 / 2 : ℚ) * ((xs.length : ℚ) - 1)⌋ = (k : ℤ) := by
      rw [hrn, Int.floor_natCast]
    rw [hfl, hrn]
    have htn : ((k : ℤ)).toNat = k := by omega
    rw [htn]
    have hmod : xs.length % 2 = 1 := by omega
    rw [if_pos hmod]
    have hdiv : xs.length / 2 = k := by omega
    rw [hdiv]
    have hd : (k : ℚ) - ((k : ℤ) : ℚ) = 0 := by push_cast; ring
    rw [hd]
    ring

lemma STDDEV_eq_specStd (sq : ℚ → ℚ) (xs : List ℚ) : STDDEV sq xs = specStd sq xs := by
  unfold STDDEV specStd
  rw [sqlVar_eq_sampleVar]

lemma agg_cv_eq (sq : ℚ → ℚ) (xs : List ℚ) (hm : mean xs ≠ 0) :
    aggApply AggChoice.cv sq xs = some (specCV sq xs) := by
  have hm' : ¬ (xs.sum / (xs.length : ℚ) = 0) := hm
  have hmean_eq : xs.sum / (xs.length : ℚ) = mean xs := rfl
  simp only [aggApply, specCV]
  rw [if_neg hm', STDDEV_eq_specStd, hmean_eq]

lemma agg_posRate_eq (xs : List ℚ) (sq : ℚ → ℚ) :
    aggApply AggChoice.posRate sq xs = some (specPosRate xs) := by
  simp only [aggApply, specPosRate]
  rw [sum_map_pos_indicator]
  congr 1
  ring

/-- C2: the selector dispatches the eight method names to the branches
the claim lists, and six of the eight emitted formulas compute exactly
their statistic (median as the 0.5 percentile, equal to the classical
sorted-middle median; mean; sample standard deviation; coefficient of
variation as stddev over the absolute mean times 100; IQR as the 0.75
minus the 0.25 percentile; positive rate as the percentage of strictly
positive values).  The skewness and kurtosis branches, however, emit
`AVG(POWER((x - AVG(x)) / NULLIF(STDDEV(x), 0), k))`, an aggregate
call nested inside an aggregate call; PostgreSQL rejects such a select
list ("aggregate function calls cannot be nested", SQLSTATE 42803),
and `fetch_heatmap_data` has no try/except, so choosing 偏度 or 峰度
raises instead of computing the statistic its label promises. -/
theorem c2_selector_skew_kurt_sql_invalid (sq : ℚ → ℚ) (xs : List ℚ)
    (hne : xs ≠ []) (hm : mean xs ≠ 0) :
    aggOf "偏度 (分佈形狀)" = AggChoice.skew ∧
      aggNestOk (aggExpr AggChoice.skew) = false ∧
      aggApply AggChoice.skew sq xs = none ∧
    aggOf "峰度 (尾部厚度)" = AggChoice.kurt ∧
      aggNestOk (aggExpr AggChoice.kurt) = false ∧
      aggApply AggChoice.kurt sq xs = none ∧
    aggOf "中位數 (排除極端值)" = AggChoice.median ∧
      aggNestOk (aggExpr AggChoice.median) = true ∧
      aggApply AggChoice.median sq xs = some (specMedian xs) ∧
    aggOf "平均值 (含極端值)" = AggChoice.meanAgg ∧
      aggNestOk (aggExpr AggChoice.meanAgg) = true ∧
      aggApply AggChoice.meanAgg sq xs = some (mean xs) ∧
    aggOf "標準差 (波動程度)" = AggChoice.stddevAgg ∧
      aggNestOk (aggExpr AggChoice.stddevAgg) = true ∧
      aggApply AggChoice.stddevAgg sq xs = some (specStd sq xs) ∧
    aggOf "變異係數 (相對波動)" = AggChoice.cv ∧
      aggNestOk (aggExpr AggChoice.cv) = true ∧
      aggApply AggChoice.cv sq xs = some (specCV sq xs) ∧
    aggOf "四分位距 (離散程度)" = AggChoice.iqr ∧
      aggNestOk (aggExpr AggChoice.iqr) = true ∧
      aggApply AggChoice.iqr sq xs = some (specIQR xs) ∧
    aggOf "正樣本比例" = AggChoice.posRate ∧
      aggNestOk (aggExpr AggChoice.posRate) = true ∧
      aggApply AggChoice.posRate sq xs = some (specPosRate xs) :=
  ⟨rfl, by decide, rfl,
    rfl, by decide, rfl,
    rfl, by decide, congrArg some (percentileCont_half xs hne),
    rfl, by decide, rfl,
    rfl, by decide, congrArg some (STDDEV_eq_specStd sq xs),
    rfl, by decide, agg_cv_eq sq xs hm,
    rfl, by decide, rfl,
    rfl, by decide, agg_posRate_eq xs sq⟩

/-- C2 witness: at the concrete bucket [1, 2, 4], with the identity as
square-root stand-in, the skewness branch yields no value while the
median branch computes the classical median. -/
theorem c2_selector_skew_kurt_sql_invalid_witness :
    ([1, 2, 4] : List ℚ) ≠ [] ∧ mean [1, 2, 4] ≠ 0 ∧
    aggApply AggChoice.skew id [1, 2, 4] = none ∧
    aggNestOk (aggExpr AggChoice.skew) = false ∧
    aggApply AggChoice.median id [1, 2, 4] = some (specMedian [1, 2, 4]) := by
  have h1 : ([1, 2, 4] : List ℚ) ≠ [] := by simp
  have h2 : mean ([1, 2, 4] : List ℚ) ≠ 0 := by norm_num [mean]
  have h := c2_selector_skew_kurt_sql_invalid id [1, 2, 4] h1 h2
  exact ⟨h1, h2, h.2.2.1, h.2.1, h.2.2.2.2.2.2.2.2.1⟩

/-- C8 counterexample: the two data engines differ in more than the
price field and the bucket table — the high engine's row filter
rejects a row with `year_open = 0` (and any row with a NULL price)
that the main engine accepts. -/
theorem c8_counterexample :
    appRowFilter "2024" ⟨"X.TW", "2024", some 0, some 1, some 2⟩ = true ∧
    highRowFilter "2024" ⟨"X.TW", "2024", some 0, some 1, some 2⟩ = false := by
  refine ⟨by decide, by decide⟩

/-- C8 (amended): for every statistic method name the aggregation
formula and statistic label chosen by `fetch_heatmap_data` and by
`fetch_heatmap_data_high` are identical, and the two engines use the
same report-month window; they differ in the price field of the
return formula, in the bucket table, and additionally in the high
engine's row filter, which drops rows with NULL prices or
non-positive `year_open`. -/
theorem c8_selectors_identical :
    aggOfHigh = aggOf ∧ statLabelOfHigh = statLabelOf ∧
    highMonthWindow = appMonthWindow := by
  refine ⟨rfl, rfl, rfl⟩


/-! ### Facts about the high-price bucketing rule -/

lemma boh1 (r : ℚ) (h2 : r < 100) : bin_order_high r = 1 := by
  unfold bin_order_high; rw [if_pos h2]

lemma boh2 (r : ℚ) (h1 : 100 ≤ r) (h2 : r < 200) : bin_order_high r = 2 := by
  unfold bin_order_high; rw [if_neg (not_lt.mpr (by linarith)), if_pos h2]

lemma boh3 (r : ℚ) (h1 : 200 ≤ r) (h2 : r < 300) : bin_order_high r = 3 := by
  unfold bin_order_high; rw [if_neg (not_lt.mpr (by linarith)), if_neg (not_lt.mpr (by linarith)), if_pos h2]

lemma boh4 (r : ℚ) (h1 : 300 ≤ r) (h2 : r < 400) : bin_order_high r = 4 := by
  unfold bin_order_high; rw [if_neg (not_lt.mpr (by linarith)), if_neg (not_lt.mpr (by linarith)), if_neg (not_lt.mpr (by linarith)), if_pos h2]

lemma boh5 (r : ℚ) (h1 : 400 ≤ r) (h2 : r < 500) : bin_order_high r = 5 := by
  unfold bin_order_high; rw [if_neg (not_lt.mpr (by linarith)), if_neg (not_lt.mpr (by linarith)), if_neg (not_lt.mpr (by linarith)), if_neg (not_lt.mpr (by linarith)), if_pos h2]

lemma boh6 (r : ℚ) (h1 : 500 ≤ r) (h2 : r < 600) : bin_order_high r = 6 := by
  unfold bin_order_high; rw [if_neg (not_lt.mpr (by linarith)), if_neg (not_lt.mpr (by linarith)), if_neg (not_lt.mpr (by linarith)), if_neg (not_lt.mpr (by linarith)), if_neg (not_lt.mpr (by linarith)), if_pos h2]

lemma boh7 (r : ℚ) (h1 : 600 ≤ r) (h2 : r < 700) : bin_order_high r = 7 := by
  unfold bin_order_high; rw [if_neg (not_lt.mpr (by linarith)), if_neg (not_lt.mpr (by linarith)), if_neg (not_lt.mpr (by linarith)), if_neg (not_lt.mpr (by linarith)), if_neg (not_lt.mpr (by linarith)), if_neg (not_lt.mpr (by linarith)), if_pos h2]

lemma boh8 (r : ℚ) (h1 : 700 ≤ r) (h2 : r < 800) : bin_order_high r = 8 := by
  unfold bin_order_high; rw [if_neg (not_lt.mpr (by linarith)), if_neg (not_lt.mpr (by linarith)), if_neg (not_lt.mpr (by linarith)), if_neg (not_lt.mpr (by linarith)), if_neg (not_lt.mpr (by linarith)), if_neg (not_lt.mpr (by linarith)), if_neg (not_lt.mpr (by linarith)), if_pos h2]

lemma boh9 (r : ℚ) (h1 : 800 ≤ r) (h2 : r < 900) : bin_order_high r = 9 := by
  unfold bin_order_high; rw [if_neg (not_lt.mpr (by linarith)), if_neg (not_lt.mpr (by linarith)), if_neg (not_lt.mpr (by linarith)), if_neg (not_lt.mpr (by linarith)), if_neg (not_lt.mpr (by linarith)), if_neg (not_lt.mpr (by linarith)), if_neg (not_lt.mpr (by linarith)), if_neg (not_lt.mpr (by linarith)), if_pos h2]

lemma boh10 (r : ℚ) (h1 : 900 ≤ r) (h2 : r < 1000) : bin_order_high r = 10 := by
  unfold bin_order_high; rw [if_neg (not_lt.mpr (by linarith)), if_neg (not_lt.mpr (by linarith)), if_neg (not_lt.mpr (by linarith)), if_neg (not_lt.mpr (by linarith)), if_neg (not_lt.mpr (by linarith)), if_neg (not_lt.mpr (by linarith)), if_neg (not_lt.mpr (by linarith)), if_neg (not_lt.mpr (by linarith)), if_neg (not_lt.mpr (by linarith)), if_pos h2]

lemma boh11 (r : ℚ) (h1 : 1000 ≤ r) : bin_order_high r = 11 := by
  unfold bin_order_high; rw [if_neg (not_lt.mpr (by linarith)), if_neg (not_lt.mpr (by linarith)), if_neg (not_lt.mpr (by linarith)), if_neg (not_lt.mpr (by linarith)), if_neg (not_lt.mpr (by linarith)), if_neg (not_lt.mpr (by linarith)), if_neg (not_lt.mpr (by linarith)), if_neg (not_lt.mpr (by linarith)), if_neg (not_lt.mpr (by linarith)), if_neg (not_lt.mpr (by linarith))]

lemma rbh1 (r : ℚ) (h2 : r < 100) : return_bin_high r = "01. 上漲0-100%" := by
  unfold return_bin_high; rw [if_pos h2]

lemma rbh2 (r : ℚ) (h1 : 100 ≤ r) (h2 : r < 200) : return_bin_high r = "02. 上漲100-200%" := by
  unfold return_bin_high; rw [if_neg (not_lt.mpr (by linarith)), if_pos h2]

lemma rbh3 (r : ℚ) (h1 : 200 ≤ r) (h2 : r < 300) : return_bin_high r = "03. 上漲200-300%" := by
  unfold return_bin_high; rw [if_neg (not_lt.mpr (by linarith)), if_neg (not_lt.mpr (by linarith)), if_pos h2]

lemma rbh4 (r : ℚ) (h1 : 300 ≤ r) (h2 : r < 400) : return_bin_high r = "04. 上漲300-400%" := by
  unfold return_bin_high; rw [if_neg (not_lt.mpr (by linarith)), if_neg (not_lt.mpr (by linarith)), if_neg (not_lt.mpr (by linarith)), if_pos h2]

lemma rbh5 (r : ℚ) (h1 : 400 ≤ r) (h2 : r < 500) : return_bin_high r = "05. 上漲400-500%" := by
  unfold return_bin_high; rw [if_neg (not_lt.mpr (by linarith)), if_neg (not_lt.mpr (by linarith)), if_neg (not_lt.mpr (by linarith)), if_neg (not_lt.mpr (by linarith)), if_pos h2]

lemma rbh6 (r : ℚ) (h1 : 500 ≤ r) (h2 : r < 600) : return_bin_high r = "06. 上漲500-600%" := by
  unfold return_bin_high; rw [if_neg (not_lt.mpr (by linarith)), if_neg (not_lt.mpr (by linarith)), if_neg (not_lt.mpr (by linarith)), if_neg (not_lt.mpr (by linarith)), if_neg (not_lt.mpr (by linarith)), if_pos h2]

lemma rbh7 (r : ℚ) (h1 : 600 ≤ r) (h2 : r < 700) : return_bin_high r = "07. 上漲600-700%" := by
  unfold return_bin_high; rw [if_neg (not_lt.mpr (by linarith)), if_neg (not_lt.mpr (by linarith)), if_neg (not_lt.mpr (by linarith)), if_neg (not_lt.mpr (by linarith)), if_neg (not_lt.mpr (by linarith)), if_neg (not_lt.mpr (by linarith)), if_pos h2]

lemma rbh8 (r : ℚ) (h1 : 700 ≤ r) (h2 : r < 800) : return_bin_high r = "08. 上漲700-800%" := by
  unfold return_bin_high; rw [if_neg (not_lt.mpr (by linarith)), if_neg (not_lt.mpr (by linarith)), if_neg (not_lt.mpr (by linarith)), if_neg (not_lt.mpr (by linarith)), if_neg (not_lt.mpr (by linarith)), if_neg (not_lt.mpr (by linarith)), if_neg (not_lt.mpr (by linarith)), if_pos h2]

lemma rbh9 (r : ℚ) (h1 : 800 ≤ r) (h2 : r < 900) : return_bin_high r = "09. 上漲800-900%" := by
  unfold return_bin_high; rw [if_neg (not_lt.mpr (by linarith)), if_neg (not_lt.mpr (by linarith)), if_neg (not_lt.mpr (by linarith)), if_neg (not_lt.mpr (by linarith)), if_neg (not_lt.mpr (by linarith)), if_neg (not_lt.mpr (by linarith)), if_neg (not_lt.mpr (by linarith)), if_neg (not_lt.mpr (by linarith)), if_pos h2]

lemma rbh10 (r : ℚ) (h1 : 900 ≤ r) (h2 : r < 1000) : return_bin_high r = "10. 上漲900-1000%" := by
  unfold return_bin_high; rw [if_neg (not_lt.mpr (by linarith)), if_neg (not_lt.mpr (by linarith)), if_neg (not_lt.mpr (by linarith)), if_neg (not_lt.mpr (by linarith)), if_neg (not_lt.mpr (by linarith)), if_neg (not_lt.mpr (by linarith)), if_neg (not_lt.mpr (by linarith)), if_neg (not_lt.mpr (by linarith)), if_neg (not_lt.mpr (by linarith)), if_pos h2]

lemma rbh11 (r : ℚ) (h1 : 1000 ≤ r) : return_bin_high r = "11. 上漲1000%以上" := by
  unfold return_bin_high; rw [if_neg (not_lt.mpr (by linarith)), if_neg (not_lt.mpr (by linarith)), if_neg (not_lt.mpr (by linarith)), if_neg (not_lt.mpr (by linarith)), if_neg (not_lt.mpr (by linarith)), if_neg (not_lt.mpr (by linarith)), if_neg (not_lt.mpr (by linarith)), if_neg (not_lt.mpr (by linarith)), if_neg (not_lt.mpr (by linarith)), if_neg (not_lt.mpr (by linarith))]

lemma bin_cases_high (r : ℚ) :
    (r < 100 ∧ bin_order_high r = 1 ∧ return_bin_high r = "01. 上漲0-100%") ∨
    ((100 ≤ r ∧ r < 200) ∧ bin_order_high r = 2 ∧ return_bin_high r = "02. 上漲100-200%") ∨
    ((200 ≤ r ∧ r < 300) ∧ bin_order_high r = 3 ∧ return_bin_high r = "03. 上漲200-300%") ∨
    ((300 ≤ r ∧ r < 400) ∧ bin_order_high r = 4 ∧ return_bin_high r = "04. 上漲300-400%") ∨
    ((400 ≤ r ∧ r < 500) ∧ bin_order_high r = 5 ∧ return_bin_high r = "05. 上漲400-500%") ∨
    ((500 ≤ r ∧ r < 600) ∧ bin_order_high r = 6 ∧ return_bin_high r = "06. 上漲500-600%") ∨
    ((600 ≤ r ∧ r < 700) ∧ bin_order_high r = 7 ∧ return_bin_high r = "07. 上漲600-700%") ∨
    ((700 ≤ r ∧ r < 800) ∧ bin_order_high r = 8 ∧ return_bin_high r = "08. 上漲700-800%") ∨
    ((800 ≤ r ∧ r < 900) ∧ bin_order_high r = 9 ∧ return_bin_high r = "09. 上漲800-900%") ∨
    ((900 ≤ r ∧ r < 1000) ∧ bin_order_high r = 10 ∧ return_bin_high r = "10. 上漲900-1000%") ∨
    (1000 ≤ r ∧ bin_order_high r = 11 ∧ return_bin_high r = "11. 上漲1000%以上") := by
  by_cases c1 : r < 100
  · exact Or.inl ⟨c1, boh1 r c1, rbh1 r c1⟩
  by_cases c2 : r < 200
  · exact Or.inr (Or.inl ⟨⟨by linarith [not_lt.mp c1], c2⟩, boh2 r (by linarith [not_lt.mp c1]) c2, rbh2 r (by linarith [not_lt.mp c1]) c2⟩)
  by_cases c3 : r < 300
  · exact Or.inr (Or.inr (Or.inl ⟨⟨by linarith [not_lt.mp c2], c3⟩, boh3 r (by linarith [not_lt.mp c2]) c3, rbh3 r (by linarith [not_lt.mp c2]) c3⟩))
  by_cases c4 : r < 400
  · exact Or.inr (Or.inr (Or.inr (Or.inl ⟨⟨by linarith [not_lt.mp c3], c4⟩, boh4 r (by linarith [not_lt.mp c3]) c4, rbh4 r (by linarith [not_lt.mp c3]) c4⟩)))
  by_cases c5 : r < 500
  · exact Or.inr (Or.inr (Or.inr (Or.inr (Or.inl ⟨⟨by linarith [not_lt.mp c4], c5⟩, boh5 r (by linarith [not_lt.mp c4]) c5, rbh5 r (by linarith [not_lt.mp c4]) c5⟩))))
  by_cases c6 : r < 600
  · exact Or.inr (Or.inr (Or.inr (Or.inr (Or.inr (Or.inl ⟨⟨by linarith [not_lt.mp c5], c6⟩, boh6 r (by linarith [not_lt.mp c5]) c6, rbh6 r (by linarith [not_lt.mp c5]) c6⟩)))))
  by_cases c7 : r < 700
  · exact Or.inr (Or.inr (Or.inr (Or.inr (Or.inr (Or.inr (Or.inl ⟨⟨by linarith [not_lt.mp c6], c7⟩, boh7 r (by linarith [not_lt.mp c6]) c7, rbh7 r (by linarith [not_lt.mp c6]) c7⟩))))))
  by_cases c8 : r < 800
  · exact Or.inr (Or.inr (Or.inr (Or.inr (Or.inr (Or.inr (Or.inr (Or.inl ⟨⟨by linarith [not_lt.mp c7], c8⟩, boh8 r (by linarith [not_lt.mp c7]) c8, rbh8 r (by linarith [not_lt.mp c7]) c8⟩)))))))
  by_cases c9 : r < 900
  · exact Or.inr (Or.inr (Or.inr (Or.inr (Or.inr (Or.inr (Or.inr (Or.inr (Or.inl ⟨⟨by linarith [not_lt.mp c8], c9⟩, boh9 r (by linarith [not_lt.mp c8]) c9, rbh9 r (by linarith [not_lt.mp c8]) c9⟩))))))))
  by_cases c10 : r < 1000
  · exact Or.inr (Or.inr (Or.inr (Or.inr (Or.inr (Or.inr (Or.inr (Or.inr (Or.inr (Or.inl ⟨⟨by linarith [not_lt.mp c9], c10⟩, boh10 r (by linarith [not_lt.mp c9]) c10, rbh10 r (by linarith [not_lt.mp c9]) c10⟩)))))))))
  exact Or.inr (Or.inr (Or.inr (Or.inr (Or.inr (Or.inr (Or.inr (Or.inr (Or.inr (Or.inr (⟨by linarith [not_lt.mp c10], boh11 r (by linarith [not_lt.mp c10]), rbh11 r (by linarith [not_lt.mp c10])⟩))))))))))

/-! ### Facts about the close-price bucketing rule -/

lemma bo0 (r : ℚ) (h2 : r ≤ -100) : bin_order r = 0 := by
  unfold bin_order; rw [if_pos h2]

lemma bo1 (r : ℚ) (h1 : -100 < r) (h2 : r < -90) : bin_order r = 1 := by
  unfold bin_order; rw [if_neg (not_le.mpr (by linarith)), if_pos h2]

lemma bo2 (r : ℚ) (h1 : -90 ≤ r) (h2 : r < -80) : bin_order r = 2 := by
  unfold bin_order; rw [if_neg (not_le.mpr (by linarith)), if_neg (not_lt.mpr (by linarith)), if_pos h2]

lemma bo3 (r : ℚ) (h1 : -80 ≤ r) (h2 : r < -70) : bin_order r = 3 := by
  unfold bin_order; rw [if_neg (not_le.mpr (by linarith)), if_neg (not_lt.mpr (by linarith)), if_neg (not_lt.mpr (by linarith)), if_pos h2]

lemma bo4 (r : ℚ) (h1 : -70 ≤ r) (h2 : r < -60) : bin_order r = 4 := by
  unfold bin_order; rw [if_neg (not_le.mpr (by linarith)), if_neg (not_lt.mpr (by linarith)), if_neg (not_lt.mpr (by linarith)), if_neg (not_lt.mpr (by linarith)), if_pos h2]

lemma bo5 (r : ℚ) (h1 : -60 ≤ r) (h2 : r < -50) : bin_order r = 5 := by
  unfold bin_order; rw [if_neg (not_le.mpr (by linarith)), if_neg (not_lt.mpr (by linarith)), if_neg (not_lt.mpr (by linarith)), if_neg (not_lt.mpr (by linarith)), if_neg (not_lt.mpr (by linarith)), if_pos h2]

lemma bo6 (r : ℚ) (h1 : -50 ≤ r) (h2 : r < -40) : bin_order r = 6 := by
  unfold bin_order; rw [if_neg (not_le.mpr (by linarith)), if_neg (not_lt.mpr (by linarith)), if_neg (not_lt.mpr (by linarith)), if_neg (not_lt.mpr (by linarith)), if_neg (not_lt.mpr (by linarith)), if_neg (not_lt.mpr (by linarith)), if_pos h2]

lemma bo7 (r : ℚ) (h1 : -40 ≤ r) (h2 : r < -30) : bin_order r = 7 := by
  unfold bin_order; rw [if_neg (not_le.mpr (by linarith)), if_neg (not_lt.mpr (by linarith)), if_neg (not_lt.mpr (by linarith)), if_neg (not_lt.mpr (by linarith)), if_neg (not_lt.mpr (by linarith)), if_neg (not_lt.mpr (by linarith)), if_neg (not_lt.mpr (by linarith)), if_pos h2]

lemma bo8 (r : ℚ) (h1 : -30 ≤ r) (h2 : r < -20) : bin_order r = 8 := by
  unfold bin_order; rw [if_neg (not_le.mpr (by linarith)), if_neg (not_lt.mpr (by linarith)), if_neg (not_lt.mpr (by linarith)), if_neg (not_lt.mpr (by linarith)), if_neg (not_lt.mpr (by linarith)), if_neg (not_lt.mpr (by linarith)), if_neg (not_lt.mpr (by linarith)), if_neg (not_lt.mpr (by linarith)), if_pos h2]

lemma bo9 (r : ℚ) (h1 : -20 ≤ r) (h2 : r < -10) : bin_order r = 9 := by
  unfold bin_order; rw [if_neg (not_le.mpr (by linarith)), if_neg (not_lt.mpr (by linarith)), if_neg (not_lt.mpr (by linarith)), if_neg (not_lt.mpr (by linarith)), if_neg (not_lt.mpr (by linarith)), if_neg (not_lt.mpr (by linarith)), if_neg (not_lt.mpr (by linarith)), if_neg (not_lt.mpr (by linarith)), if_neg (not_lt.mpr (by linarith)), if_pos h2]

lemma bo10 (r : ℚ) (h1 : -10 ≤ r) (h2 : r < 0) : bin_order r = 10 := by
  unfold bin_order; rw [if_neg (not_le.mpr (by linarith)), if_neg (not_lt.mpr (by linarith)), if_neg (not_lt.mpr (by linarith)), if_neg (not_lt.mpr (by linarith)), if_neg (not_lt.mpr (by linarith)), if_neg (not_lt.mpr (by linarith)), if_neg (not_lt.mpr (by linarith)), if_neg (not_lt.mpr (by linarith)), if_neg (not_lt.mpr (by linarith)), if_neg (not_lt.mpr (by linarith)), if_pos h2]

lemma bo11 (r : ℚ) (h1 : 0 ≤ r) (h2 : r < 100) : bin_order r = 11 := by
  unfold bin_order; rw [if_neg (not_le.mpr (by linarith)), if_neg (not_lt.mpr (by linarith)), if_neg (not_lt.mpr (by linarith)), if_neg (not_lt.mpr (by linarith)), if_neg (not_lt.mpr (by linarith)), if_neg (not_lt.mpr (by linarith)), if_neg (not_lt.mpr (by linarith)), if_neg (not_lt.mpr (by linarith)), if_neg (not_lt.mpr (by linarith)), if_neg (not_lt.mpr (by linarith)), if_neg (not_lt.mpr (by linarith)), if_pos h2]

lemma bo12 (r : ℚ) (h1 : 100 ≤ r) (h2 : r < 200) : bin_order r = 12 := by
  unfold bin_order; rw [if_neg (not_le.mpr (by linarith)), if_neg (not_lt.mpr (by linarith)), if_neg (not_lt.mpr (by linarith)), if_neg (not_lt.mpr (by linarith)), if_neg (not_lt.mpr (by linarith)), if_neg (not_lt.mpr (by linarith)), if_neg (not_lt.mpr (by linarith)), if_neg (not_lt.mpr (by linarith)), if_neg (not_lt.mpr (by linarith)), if_neg (not_lt.mpr (by linarith)), if_neg (not_lt.mpr (by linarith)), if_neg (not_lt.mpr (by linarith)), if_pos h2]

lemma bo13 (r : ℚ) (h1 : 200 ≤ r) (h2 : r < 300) : bin_order r = 13 := by
  unfold bin_order; rw [if_neg (not_le.mpr (by linarith)), if_neg (not_lt.mpr (by linarith)), if_neg (not_lt.mpr (by linarith)), if_neg (not_lt.mpr (by linarith)), if_neg (not_lt.mpr (by linarith)), if_neg (not_lt.mpr (by linarith)), if_neg (not_lt.mpr (by linarith)), if_neg (not_lt.mpr (by linarith)), if_neg (not_lt.mpr (by linarith)), if_neg (not_lt.mpr (by linarith)), if_neg (not_lt.mpr (by linarith)), if_neg (not_lt.mpr (by linarith)), if_neg (not_lt.mpr (by linarith)), if_pos h2]

lemma bo14 (r : ℚ) (h1 : 300 ≤ r) (h2 : r < 400) : bin_order r = 14 := by
  unfold bin_order; rw [if_neg (not_le.mpr (by linarith)), if_neg (not_lt.mpr (by linarith)), if_neg (not_lt.mpr (by linarith)), if_neg (not_lt.mpr (by linarith)), if_neg (not_lt.mpr (by linarith)), if_neg (not_lt.mpr (by linarith)), if_neg (not_lt.mpr (by linarith)), if_neg (not_lt.mpr (by linarith)), if_neg (not_lt.mpr (by linarith)), if_neg (not_lt.mpr (by linarith)), if_neg (not_lt.mpr (by linarith)), if_neg (not_lt.mpr (by linarith)), if_neg (not_lt.mpr (by linarith)), if_neg (not_lt.mpr (by linarith)), if_pos h2]

lemma bo15 (r : ℚ) (h1 : 400 ≤ r) (h2 : r < 500) : bin_order r = 15 := by
  unfold bin_order; rw [if_neg (not_le.mpr (by linarith)), if_neg (not_lt.mpr (by linarith)), if_neg (not_lt.mpr (by linarith)), if_neg (not_lt.mpr (by linarith)), if_neg (not_lt.mpr (by linarith)), if_neg (not_lt.mpr (by linarith)), if_neg (not_lt.mpr (by linarith)), if_neg (not_lt.mpr (by linarith)), if_neg (not_lt.mpr (by linarith)), if_neg (not_lt.mpr (by linarith)), if_neg (not_lt.mpr (by linarith)), if_neg (not_lt.mpr (by linarith)), if_neg (not_lt.mpr (by linarith)), if_neg (not_lt.mpr (by linarith)), if_neg (not_lt.mpr (by linarith)), if_pos h2]

lemma bo16 (r : ℚ) (h1 : 500 ≤ r) (h2 : r < 600) : bin_order r = 16 := by
  unfold bin_order; rw [if_neg (not_le.mpr (by linarith)), if_neg (not_lt.mpr (by linarith)), if_neg (not_lt.mpr (by linarith)), if_neg (not_lt.mpr (by linarith)), if_neg (not_lt.mpr (by linarith)), if_neg (not_lt.mpr (by linarith)), if_neg (not_lt.mpr (by linarith)), if_neg (not_lt.mpr (by linarith)), if_neg (not_lt.mpr (by linarith)), if_neg (not_lt.mpr (by linarith)), if_neg (not_lt.mpr (by linarith)), if_neg (not_lt.mpr (by linarith)), if_neg (not_lt.mpr (by linarith)), if_neg (not_lt.mpr (by linarith)), if_neg (not_lt.mpr (by linarith)), if_neg (not_lt.mpr (by linarith)), if_pos h2]

lemma bo17 (r : ℚ) (h1 : 600 ≤ r) (h2 : r < 700) : bin_order r = 17 := by
  unfold bin_order; rw [if_neg (not_le.mpr (by linarith)), if_neg (not_lt.mpr (by linarith)), if_neg (not_lt.mpr (by linarith)), if_neg (not_lt.mpr (by linarith)), if_neg (not_lt.mpr (by linarith)), if_neg (not_lt.mpr (by linarith)), if_neg (not_lt.mpr (by linarith)), if_neg (not_lt.mpr (by linarith)), if_neg (not_lt.mpr (by linarith)), if_neg (not_lt.mpr (by linarith)), if_neg (not_lt.mpr (by linarith)), if_neg (not_lt.mpr (by linarith)), if_neg (not_lt.mpr (by linarith)), if_neg (not_lt.mpr (by linarith)), if_neg (not_lt.mpr (by linarith)), if_neg (not_lt.mpr (by linarith)), if_neg (not_lt.mpr (by linarith)), if_pos h2]

lemma bo18 (r : ℚ) (h1 : 700 ≤ r) (h2 : r < 800) : bin_order r = 18 := by
  unfold bin_order; rw [if_neg (not_le.mpr (by linarith)), if_neg (not_lt.mpr (by linarith)), if_neg (not_lt.mpr (by linarith)), if_neg (not_lt.mpr (by linarith)), if_neg (not_lt.mpr (by linarith)), if_neg (not_lt.mpr (by linarith)), if_neg (not_lt.mpr (by linarith)), if_neg (not_lt.mpr (by linarith)), if_neg (not_lt.mpr (by linarith)), if_neg (not_lt.mpr (by linarith)), if_neg (not_lt.mpr (by linarith)), if_neg (not_lt.mpr (by linarith)), if_neg (not_lt.mpr (by linarith)), if_neg (not_lt.mpr (by linarith)), if_neg (not_lt.mpr (by linarith)), if_neg (not_lt.mpr (by linarith)), if_neg (not_lt.mpr (by linarith)), if_neg (not_lt.mpr (by linarith)), if_pos h2]

lemma bo19 (r : ℚ) (h1 : 800 ≤ r) (h2 : r < 900) : bin_order r = 19 := by
  unfold bin_order; rw [if_neg (not_le.mpr (by linarith)), if_neg (not_lt.mpr (by linarith)), if_neg (not_lt.mpr (by linarith)), if_neg (not_lt.mpr (by linarith)), if_neg (not_lt.mpr (by linarith)), if_neg (not_lt.mpr (by linarith)), if_neg (not_lt.mpr (by linarith)), if_neg (not_lt.mpr (by linarith)), if_neg (not_lt.mpr (by linarith)), if_neg (not_lt.mpr (by linarith)), if_neg (not_lt.mpr (by linarith)), if_neg (not_lt.mpr (by linarith)), if_neg (not_lt.mpr (by linarith)), if_neg (not_lt.mpr (by linarith)), if_neg (not_lt.mpr (by linarith)), if_neg (not_lt.mpr (by linarith)), if_neg (not_lt.mpr (by linarith)), if_neg (not_lt.mpr (by linarith)), if_neg (not_lt.mpr (by linarith)), if_pos h2]

lemma bo20 (r : ℚ) (h1 : 900 ≤ r) (h2 : r < 1000) : bin_order r = 20 := by
  unfold bin_order; rw [if_neg (not_le.mpr (by linarith)), if_neg (not_lt.mpr (by linarith)), if_neg (not_lt.mpr (by linarith)), if_neg (not_lt.mpr (by linarith)), if_neg (not_lt.mpr (by linarith)), if_neg (not_lt.mpr (by linarith)), if_neg (not_lt.mpr (by linarith)), if_neg (not_lt.mpr (by linarith)), if_neg (not_lt.mpr (by linarith)), if_neg (not_lt.mpr (by linarith)), if_neg (not_lt.mpr (by linarith)), if_neg (not_lt.mpr (by linarith)), if_neg (not_lt.mpr (by linarith)), if_neg (not_lt.mpr (by linarith)), if_neg (not_lt.mpr (by linarith)), if_neg (not_lt.mpr (by linarith)), if_neg (not_lt.mpr (by linarith)), if_neg (not_lt.mpr (by linarith)), if_neg (not_lt.mpr (by linarith)), if_neg (not_lt.mpr (by linarith)), if_pos h2]

lemma bo21 (r : ℚ) (h1 : 1000 ≤ r) : bin_order r = 21 := by
  unfold bin_order; rw [if_neg (not_le.mpr (by linarith)), if_neg (not_lt.mpr (by linarith)), if_neg (not_lt.mpr (by linarith)), if_neg (not_lt.mpr (by linarith)), if_neg (not_lt.mpr (by linarith)), if_neg (not_lt.mpr (by linarith)), if_neg (not_lt.mpr (by linarith)), if_neg (not_lt.mpr (by linarith)), if_neg (not_lt.mpr (by linarith)), if_neg (not_lt.mpr (by linarith)), if_neg (not_lt.mpr (by linarith)), if_neg (not_lt.mpr (by linarith)), if_neg (not_lt.mpr (by linarith)), if_neg (not_lt.mpr (by linarith)), if_neg (not_lt.mpr (by linarith)), if_neg (not_lt.mpr (by linarith)), if_neg (not_lt.mpr (by linarith)), if_neg (not_lt.mpr (by linarith)), if_neg (not_lt.mpr (by linarith)), if_neg (not_lt.mpr (by linarith)), if_neg (not_lt.mpr (by linarith))]

lemma rb0 (r : ℚ) (h2 : r ≤ -100) : return_bin r = "00. 下跌-100%以下" := by
  unfold return_bin; rw [if_pos h2]

lemma rb1 (r : ℚ) (h1 : -100 < r) (h2 : r < -90) : return_bin r = "01. 下跌-100%至-90%" := by
  unfold return_bin; rw [if_neg (not_le.mpr (by linarith)), if_pos h2]

lemma rb2 (r : ℚ) (h1 : -90 ≤ r) (h2 : r < -80) : return_bin r = "02. 下跌-90%至-80%" := by
  unfold return_bin; rw [if_neg (not_le.mpr (by linarith)), if_neg (not_lt.mpr (by linarith)), if_pos h2]

lemma rb3 (r : ℚ) (h1 : -80 ≤ r) (h2 : r < -70) : return_bin r = "03. 下跌-80%至-70%" := by
  unfold return_bin; rw [if_neg (not_le.mpr (by linarith)), if_neg (not_lt.mpr (by linarith)), if_neg (not_lt.mpr (by linarith)), if_pos h2]

lemma rb4 (r : ℚ) (h1 : -70 ≤ r) (h2 : r < -60) : return_bin r = "04. 下跌-70%至-60%" := by
  unfold return_bin; rw [if_neg (not_le.mpr (by linarith)), if_neg (not_lt.mpr (by linarith)), if_neg (not_lt.mpr (by linarith)), if_neg (not_lt.mpr (by linarith)), if_pos h2]

lemma rb5 (r : ℚ) (h1 : -60 ≤ r) (h2 : r < -50) : return_bin r = "05. 下跌-60%至-50%" := by
  unfold return_bin; rw [if_neg (not_le.mpr (by linarith)), if_neg (not_lt.mpr (by linarith)), if_neg (not_lt.mpr (by linarith)), if_neg (not_lt.mpr (by linarith)), if_neg (not_lt.mpr (by linarith)), if_pos h2]

lemma rb6 (r : ℚ) (h1 : -50 ≤ r) (h2 : r < -40) : return_bin r = "06. 下跌-50%至-40%" := by
  unfold return_bin; rw [if_neg (not_le.mpr (by linarith)), if_neg (not_lt.mpr (by linarith)), if_neg (not_lt.mpr (by linarith)), if_neg (not_lt.mpr (by linarith)), if_neg (not_lt.mpr (by linarith)), if_neg (not_lt.mpr (by linarith)), if_pos h2]

lemma rb7 (r : ℚ) (h1 : -40 ≤ r) (h2 : r < -30) : return_bin r = "07. 下跌-40%至-30%" := by
  unfold return_bin; rw [if_neg (not_le.mpr (by linarith)), if_neg (not_lt.mpr (by linarith)), if_neg (not_lt.mpr (by linarith)), if_neg (not_lt.mpr (by linarith)), if_neg (not_lt.mpr (by linarith)), if_neg (not_lt.mpr (by linarith)), if_neg (not_lt.mpr (by linarith)), if_pos h2]

lemma rb8 (r : ℚ) (h1 : -30 ≤ r) (h2 : r < -20) : return_bin r = "08. 下跌-30%至-20%" := by
  unfold return_bin; rw [if_neg (not_le.mpr (by linarith)), if_neg (not_lt.mpr (by linarith)), if_neg (not_lt.mpr (by linarith)), if_neg (not_lt.mpr (by linarith)), if_neg (not_lt.mpr (by linarith)), if_neg (not_lt.mpr (by linarith)), if_neg (not_lt.mpr (by linarith)), if_neg (not_lt.mpr (by linarith)), if_pos h2]

lemma rb9 (r : ℚ) (h1 : -20 ≤ r) (h2 : r < -10) : return_bin r = "09. 下跌-20%至-10%" := by
  unfold return_bin; rw [if_neg (not_le.mpr (by linarith)), if_neg (not_lt.mpr (by linarith)), if_neg (not_lt.mpr (by linarith)), if_neg (not_lt.mpr (by linarith)), if_neg (not_lt.mpr (by linarith)), if_neg (not_lt.mpr (by linarith)), if_neg (not_lt.mpr (by linarith)), if_neg (not_lt.mpr (by linarith)), if_neg (not_lt.mpr (by linarith)), if_pos h2]

lemma rb10 (r : ℚ) (h1 : -10 ≤ r) (h2 : r < 0) : return_bin r = "10. 下跌-10%至0%" := by
  unfold return_bin; rw [if_neg (not_le.mpr (by linarith)), if_neg (not_lt.mpr (by linarith)), if_neg (not_lt.mpr (by linarith)), if_neg (not_lt.mpr (by linarith)), if_neg (not_lt.mpr (by linarith)), if_neg (not_lt.mpr (by linarith)), if_neg (not_lt.mpr (by linarith)), if_neg (not_lt.mpr (by linarith)), if_neg (not_lt.mpr (by linarith)), if_neg (not_lt.mpr (by linarith)), if_pos h2]

lemma rb11 (r : ℚ) (h1 : 0 ≤ r) (h2 : r < 100) : return_bin r = "11. 上漲0-100%" := by
  unfold return_bin; rw [if_neg (not_le.mpr (by linarith)), if_neg (not_lt.mpr (by linarith)), if_neg (not_lt.mpr (by linarith)), if_neg (not_lt.mpr (by linarith)), if_neg (not_lt.mpr (by linarith)), if_neg (not_lt.mpr (by linarith)), if_neg (not_lt.mpr (by linarith)), if_neg (not_lt.mpr (by linarith)), if_neg (not_lt.mpr (by linarith)), if_neg (not_lt.mpr (by linarith)), if_neg (not_lt.mpr (by linarith)), if_pos h2]

lemma rb12 (r : ℚ) (h1 : 100 ≤ r) (h2 : r < 200) : return_bin r = "12. 上漲100-200%" := by
  unfold return_bin; rw [if_neg (not_le.mpr (by linarith)), if_neg (not_lt.mpr (by linarith)), if_neg (not_lt.mpr (by linarith)), if_neg (not_lt.mpr (by linarith)), if_neg (not_lt.mpr (by linarith)), if_neg (not_lt.mpr (by linarith)), if_neg (not_lt.mpr (by linarith)), if_neg (not_lt.mpr (by linarith)), if_neg (not_lt.mpr (by linarith)), if_neg (not_lt.mpr (by linarith)), if_neg (not_lt.mpr (by linarith)), if_neg (not_lt.mpr (by linarith)), if_pos h2]

lemma rb13 (r : ℚ) (h1 : 200 ≤ r) (h2 : r < 300) : return_bin r = "13. 上漲200-300%" := by
  unfold return_bin; rw [if_neg (not_le.mpr (by linarith)), if_neg (not_lt.mpr (by linarith)), if_neg (not_lt.mpr (by linarith)), if_neg (not_lt.mpr (by linarith)), if_neg (not_lt.mpr (by linarith)), if_neg (not_lt.mpr (by linarith)), if_neg (not_lt.mpr (by linarith)), if_neg (not_lt.mpr (by linarith)), if_neg (not_lt.mpr (by linarith)), if_neg (not_lt.mpr (by linarith)), if_neg (not_lt.mpr (by linarith)), if_neg (not_lt.mpr (by linarith)), if_neg (not_lt.mpr (by linarith)), if_pos h2]

lemma rb14 (r : ℚ) (h1 : 300 ≤ r) (h2 : r < 400) : return_bin r = "14. 上漲300-400%" := by
  unfold return_bin; rw [if_neg (not_le.mpr (by linarith)), if_neg (not_lt.mpr (by linarith)), if_neg (not_lt.mpr (by linarith)), if_neg (not_lt.mpr (by linarith)), if_neg (not_lt.mpr (by linarith)), if_neg (not_lt.mpr (by linarith)), if_neg (not_lt.mpr (by linarith)), if_neg (not_lt.mpr (by linarith)), if_neg (not_lt.mpr (by linarith)), if_neg (not_lt.mpr (by linarith)), if_neg (not_lt.mpr (by linarith)), if_neg (not_lt.mpr (by linarith)), if_neg (not_lt.mpr (by linarith)), if_neg (not_lt.mpr (by linarith)), if_pos h2]

lemma rb15 (r : ℚ) (h1 : 400 ≤ r) (h2 : r < 500) : return_bin r = "15. 上漲400-500%" := by
  unfold return_bin; rw [if_neg (not_le.mpr (by linarith)), if_neg (not_lt.mpr (by linarith)), if_neg (not_lt.mpr (by linarith)), if_neg (not_lt.mpr (by linarith)), if_neg (not_lt.mpr (by linarith)), if_neg (not_lt.mpr (by linarith)), if_neg (not_lt.mpr (by linarith)), if_neg (not_lt.mpr (by linarith)), if_neg (not_lt.mpr (by linarith)), if_neg (not_lt.mpr (by linarith)), if_neg (not_lt.mpr (by linarith)), if_neg (not_lt.mpr (by linarith)), if_neg (not_lt.mpr (by linarith)), if_neg (not_lt.mpr (by linarith)), if_neg (not_lt.mpr (by linarith)), if_pos h2]

lemma rb16 (r : ℚ) (h1 : 500 ≤ r) (h2 : r < 600) : return_bin r = "16. 上漲500-600%" := by
  unfold return_bin; rw [if_neg (not_le.mpr (by linarith)), if_neg (not_lt.mpr (by linarith)), if_neg (not_lt.mpr (by linarith)), if_neg (not_lt.mpr (by linarith)), if_neg (not_lt.mpr (by linarith)), if_neg (not_lt.mpr (by linarith)), if_neg (not_lt.mpr (by linarith)), if_neg (not_lt.mpr (by linarith)), if_neg (not_lt.mpr (by linarith)), if_neg (not_lt.mpr (by linarith)), if_neg (not_lt.mpr (by linarith)), if_neg (not_lt.mpr (by linarith)), if_neg (not_lt.mpr (by linarith)), if_neg (not_lt.mpr (by linarith)), if_neg (not_lt.mpr (by linarith)), if_neg (not_lt.mpr (by linarith)), if_pos h2]

lemma rb17 (r : ℚ) (h1 : 600 ≤ r) (h2 : r < 700) : return_bin r = "17. 上漲600-700%" := by
  unfold return_bin; rw [if_neg (not_le.mpr (by linarith)), if_neg (not_lt.mpr (by linarith)), if_neg (not_lt.mpr (by linarith)), if_neg (not_lt.mpr (by linarith)), if_neg (not_lt.mpr (by linarith)), if_neg (not_lt.mpr (by linarith)), if_neg (not_lt.mpr (by linarith)), if_neg (not_lt.mpr (by linarith)), if_neg (not_lt.mpr (by linarith)), if_neg (not_lt.mpr (by linarith)), if_neg (not_lt.mpr (by linarith)), if_neg (not_lt.mpr (by linarith)), if_neg (not_lt.mpr (by linarith)), if_neg (not_lt.mpr (by linarith)), if_neg (not_lt.mpr (by linarith)), if_neg (not_lt.mpr (by linarith)), if_neg (not_lt.mpr (by linarith)), if_pos h2]

lemma rb18 (r : ℚ) (h1 : 700 ≤ r) (h2 : r < 800) : return_bin r = "18. 上漲700-800%" := by
  unfold return_bin; rw [if_neg (not_le.mpr (by linarith)), if_neg (not_lt.mpr (by linarith)), if_neg (not_lt.mpr (by linarith)), if_neg (not_lt.mpr (by linarith)), if_neg (not_lt.mpr (by linarith)), if_neg (not_lt.mpr (by linarith)), if_neg (not_lt.mpr (by linarith)), if_neg (not_lt.mpr (by linarith)), if_neg (not_lt.mpr (by linarith)), if_neg (not_lt.mpr (by linarith)), if_neg (not_lt.mpr (by linarith)), if_neg (not_lt.mpr (by linarith)), if_neg (not_lt.mpr (by linarith)), if_neg (not_lt.mpr (by linarith)), if_neg (not_lt.mpr (by linarith)), if_neg (not_lt.mpr (by linarith)), if_neg (not_lt.mpr (by linarith)), if_neg (not_lt.mpr (by linarith)), if_pos h2]

lemma rb19 (r : ℚ) (h1 : 800 ≤ r) (h2 : r < 900) : return_bin r = "19. 上漲800-900%" := by
  unfold return_bin; rw [if_neg (not_le.mpr (by linarith)), if_neg (not_lt.mpr (by linarith)), if_neg (not_lt.mpr (by linarith)), if_neg (not_lt.mpr (by linarith)), if_neg (not_lt.mpr (by linarith)), if_neg (not_lt.mpr (by linarith)), if_neg (not_lt.mpr (by linarith)), if_neg (not_lt.mpr (by linarith)), if_neg (not_lt.mpr (by linarith)), if_neg (not_lt.mpr (by linarith)), if_neg (not_lt.mpr (by linarith)), if_neg (not_lt.mpr (by linarith)), if_neg (not_lt.mpr (by linarith)), if_neg (not_lt.mpr (by linarith)), if_neg (not_lt.mpr (by linarith)), if_neg (not_lt.mpr (by linarith)), if_neg (not_lt.mpr (by linarith)), if_neg (not_lt.mpr (by linarith)), if_neg (not_lt.mpr (by linarith)), if_pos h2]

lemma rb20 (r : ℚ) (h1 : 900 ≤ r) (h2 : r < 1000) : return_bin r = "20. 上漲900-1000%" := by
  unfold return_bin; rw [if_neg (not_le.mpr (by linarith)), if_neg (not_lt.mpr (by linarith)), if_neg (not_lt.mpr (by linarith)), if_neg (not_lt.mpr (by linarith)), if_neg (not_lt.mpr (by linarith)), if_neg (not_lt.mpr (by linarith)), if_neg (not_lt.mpr (by linarith)), if_neg (not_lt.mpr (by linarith)), if_neg (not_lt.mpr (by linarith)), if_neg (not_lt.mpr (by linarith)), if_neg (not_lt.mpr (by linarith)), if_neg (not_lt.mpr (by linarith)), if_neg (not_lt.mpr (by linarith)), if_neg (not_lt.mpr (by linarith)), if_neg (not_lt.mpr (by linarith)), if_neg (not_lt.mpr (by linarith)), if_neg (not_lt.mpr (by linarith)), if_neg (not_lt.mpr (by linarith)), if_neg (not_lt.mpr (by linarith)), if_neg (not_lt.mpr (by linarith)), if_pos h2]

lemma rb21 (r : ℚ) (h1 : 1000 ≤ r) : return_bin r = "21. 上漲1000%以上" := by
  unfold return_bin; rw [if_neg (not_le.mpr (by linarith)), if_neg (not_lt.mpr (by linarith)), if_neg (not_lt.mpr (by linarith)), if_neg (not_lt.mpr (by linarith)), if_neg (not_lt.mpr (by linarith)), if_neg (not_lt.mpr (by linarith)), if_neg (not_lt.mpr (by linarith)), if_neg (not_lt.mpr (by linarith)), if_neg (not_lt.mpr (by linarith)), if_neg (not_lt.mpr (by linarith)), if_neg (not_lt.mpr (by linarith)), if_neg (not_lt.mpr (by linarith)), if_neg (not_lt.mpr (by linarith)), if_neg (not_lt.mpr (by linarith)), if_neg (not_lt.mpr (by linarith)), if_neg (not_lt.mpr (by linarith)), if_neg (not_lt.mpr (by linarith)), if_neg (not_lt.mpr (by linarith)), if_neg (not_lt.mpr (by linarith)), if_neg (not_lt.mpr (by linarith)), if_neg (not_lt.mpr (by linarith))]

lemma bin_cases (r : ℚ) :
    (r ≤ -100 ∧ bin_order r = 0 ∧ return_bin r = "00. 下跌-100%以下") ∨
    ((-100 < r ∧ r < -90) ∧ bin_order r = 1 ∧ return_bin r = "01. 下跌-100%至-90%") ∨
    ((-90 ≤ r ∧ r < -80) ∧ bin_order r = 2 ∧ return_bin r = "02. 下跌-90%至-80%") ∨
    ((-80 ≤ r ∧ r < -70) ∧ bin_order r = 3 ∧ return_bin r = "03. 下跌-80%至-70%") ∨
    ((-70 ≤ r ∧ r < -60) ∧ bin_order r = 4 ∧ return_bin r = "04. 下跌-70%至-60%") ∨
    ((-60 ≤ r ∧ r < -50) ∧ bin_order r = 5 ∧ return_bin r = "05. 下跌-60%至-50%") ∨
    ((-50 ≤ r ∧ r < -40) ∧ bin_order r = 6 ∧ return_bin r = "06. 下跌-50%至-40%") ∨
    ((-40 ≤ r ∧ r < -30) ∧ bin_order r = 7 ∧ return_bin r = "07. 下跌-40%至-30%") ∨
    ((-30 ≤ r ∧ r < -20) ∧ bin_order r = 8 ∧ return_bin r = "08. 下跌-30%至-20%") ∨
    ((-20 ≤ r ∧ r < -10) ∧ bin_order r = 9 ∧ return_bin r = "09. 下跌-20%至-10%") ∨
    ((-10 ≤ r ∧ r < 0) ∧ bin_order r = 10 ∧ return_bin r = "10. 下跌-10%至0%") ∨
    ((0 ≤ r ∧ r < 100) ∧ bin_order r = 11 ∧ return_bin r = "11. 上漲0-100%") ∨
    ((100 ≤ r ∧ r < 200) ∧ bin_order r = 12 ∧ return_bin r = "12. 上漲100-200%") ∨
    ((200 ≤ r ∧ r < 300) ∧ bin_order r = 13 ∧ return_bin r = "13. 上漲200-300%") ∨
    ((300 ≤ r ∧ r < 400) ∧ bin_order r = 14 ∧ return_bin r = "14. 上漲300-400%") ∨
    ((400 ≤ r ∧ r < 500) ∧ bin_order r = 15 ∧ return_bin r = "15. 上漲400-500%") ∨
    ((500 ≤ r ∧ r < 600) ∧ bin_order r = 16 ∧ return_bin r = "16. 上漲500-600%") ∨
    ((600 ≤ r ∧ r < 700) ∧ bin_order r = 17 ∧ return_bin r = "17. 上漲600-700%") ∨
    ((700 ≤ r ∧ r < 800) ∧ bin_order r = 18 ∧ return_bin r = "18. 上漲700-800%") ∨
    ((800 ≤ r ∧ r < 900) ∧ bin_order r = 19 ∧ return_bin r = "19. 上漲800-900%") ∨
    ((900 ≤ r ∧ r < 1000) ∧ bin_order r = 20 ∧ return_bin r = "20. 上漲900-1000%") ∨
    (1000 ≤ r ∧ bin_order r = 21 ∧ return_bin r = "21. 上漲1000%以上") := by
  by_cases c0 : r ≤ -100
  · exact Or.inl ⟨c0, bo0 r c0, rb0 r c0⟩
  by_cases c1 : r < -90
  · exact Or.inr (Or.inl ⟨⟨not_le.mp c0, c1⟩, bo1 r (not_le.mp c0) c1, rb1 r (not_le.mp c0) c1⟩)
  by_cases c2 : r < -80
  · exact Or.inr (Or.inr (Or.inl ⟨⟨by linarith [not_lt.mp c1], c2⟩, bo2 r (by linarith [not_lt.mp c1]) c2, rb2 r (by linarith [not_lt.mp c1]) c2⟩))
  by_cases c3 : r < -70
  · exact Or.inr (Or.inr (Or.inr (Or.inl ⟨⟨by linarith [not_lt.mp c2], c3⟩, bo3 r (by linarith [not_lt.mp c2]) c3, rb3 r (by linarith [not_lt.mp c2]) c3⟩)))
  by_cases c4 : r < -60
  · exact Or.inr (Or.inr (Or.inr (Or.inr (Or.inl ⟨⟨by linarith [not_lt.mp c3], c4⟩, bo4 r (by linarith [not_lt.mp c3]) c4, rb4 r (by linarith [not_lt.mp c3]) c4⟩))))
  by_cases c5 : r < -50
  · exact Or.inr (Or.inr (Or.inr (Or.inr (Or.inr (Or.inl ⟨⟨by linarith [not_lt.mp c4], c5⟩, bo5 r (by linarith [not_lt.mp c4]) c5, rb5 r (by linarith [not_lt.mp c4]) c5⟩)))))
  by_cases c6 : r < -40
  · exact Or.inr (Or.inr (Or.inr (Or.inr (Or.inr (Or.inr (Or.inl ⟨⟨by linarith [not_lt.mp c5], c6⟩, bo6 r (by linarith [not_lt.mp c5]) c6, rb6 r (by linarith [not_lt.mp c5]) c6⟩))))))
  by_cases c7 : r < -30
  · exact Or.inr (Or.inr (Or.inr (Or.inr (Or.inr (Or.inr (Or.inr (Or.inl ⟨⟨by linarith [not_lt.mp c6], c7⟩, bo7 r (by linarith [not_lt.mp c6]) c7, rb7 r (by linarith [not_lt.mp c6]) c7⟩)))))))
  by_cases c8 : r < -20
  · exact Or.inr (Or.inr (Or.inr (Or.inr (Or.inr (Or.inr (Or.inr (Or.inr (Or.inl ⟨⟨by linarith [not_lt.mp c7], c8⟩, bo8 r (by linarith [not_lt.mp c7]) c8, rb8 r (by linarith [not_lt.mp c7]) c8⟩))))))))
  by_cases c9 : r < -10
  · exact Or.inr (Or.inr (Or.inr (Or.inr (Or.inr (Or.inr (Or.inr (Or.inr (Or.inr (Or.inl ⟨⟨by linarith [not_lt.mp c8], c9⟩, bo9 r (by linarith [not_lt.mp c8]) c9, rb9 r (by linarith [not_lt.mp c8]) c9⟩)))))))))
  by_cases c10 : r < 0
  · exact Or.inr (Or.inr (Or.inr (Or.inr (Or.inr (Or.inr (Or.inr (Or.inr (Or.inr (Or.inr (Or.inl ⟨⟨by linarith [not_lt.mp c9], c10⟩, bo10 r (by linarith [not_lt.mp c9]) c10, rb10 r (by linarith [not_lt.mp c9]) c10⟩))))))))))
  by_cases c11 : r < 100
  · exact Or.inr (Or.inr (Or.inr (Or.inr (Or.inr (Or.inr (Or.inr (Or.inr (Or.inr (Or.inr (Or.inr (Or.inl ⟨⟨by linarith [not_lt.mp c10], c11⟩, bo11 r (by linarith [not_lt.mp c10]) c11, rb11 r (by linarith [not_lt.mp c10]) c11⟩)))))))))))
  by_cases c12 : r < 200
  · exact Or.inr (Or.inr (Or.inr (Or.inr (Or.inr (Or.inr (Or.inr (Or.inr (Or.inr (Or.inr (Or.inr (Or.inr (Or.inl ⟨⟨by linarith [not_lt.mp c11], c12⟩, bo12 r (by linarith [not_lt.mp c11]) c12, rb12 r (by linarith [not_lt.mp c11]) c12⟩))))))))))))
  by_cases c13 : r < 300
  · exact Or.inr (Or.inr (Or.inr (Or.inr (Or.inr (Or.inr (Or.inr (Or.inr (Or.inr (Or.inr (Or.inr (Or.inr (Or.inr (Or.inl ⟨⟨by linarith [not_lt.mp c12], c13⟩, bo13 r (by linarith [not_lt.mp c12]) c13, rb13 r (by linarith [not_lt.mp c12]) c13⟩)))))))))))))
  by_cases c14 : r < 400
  · exact Or.inr (Or.inr (Or.inr (Or.inr (Or.inr (Or.inr (Or.inr (Or.inr (Or.inr (Or.inr (Or.inr (Or.inr (Or.inr (Or.inr (Or.inl ⟨⟨by linarith [not_lt.mp c13], c14⟩, bo14 r (by linarith [not_lt.mp c13]) c14, rb14 r (by linarith [not_lt.mp c13]) c14⟩))))))))))))))
  by_cases c15 : r < 500
  · exact Or.inr (Or.inr (Or.inr (Or.inr (Or.inr (Or.inr (Or.inr (Or.inr (Or.inr (Or.inr (Or.inr (Or.inr (Or.inr (Or.inr (Or.inr (Or.inl ⟨⟨by linarith [not_lt.mp c14], c15⟩, bo15 r (by linarith [not_lt.mp c14]) c15, rb15 r (by linarith [not_lt.mp c14]) c15⟩)))))))))))))))
  by_cases c16 : r < 600
  · exact Or.inr (Or.inr (Or.inr (Or.inr (Or.inr (Or.inr (Or.inr (Or.inr (Or.inr (Or.inr (Or.inr (Or.inr (Or.inr (Or.inr (Or.inr (Or.inr (Or.inl ⟨⟨by linarith [not_lt.mp c15], c16⟩, bo16 r (by linarith [not_lt.mp c15]) c16, rb16 r (by linarith [not_lt.mp c15]) c16⟩))))))))))))))))
  by_cases c17 : r < 700
  · exact Or.inr (Or.inr (Or.inr (Or.inr (Or.inr (Or.inr (Or.inr (Or.inr (Or.inr (Or.inr (Or.inr (Or.inr (Or.inr (Or.inr (Or.inr (Or.inr (Or.inr (Or.inl ⟨⟨by linarith [not_lt.mp c16], c17⟩, bo17 r (by linarith [not_lt.mp c16]) c17, rb17 r (by linarith [not_lt.mp c16]) c17⟩)))))))))))))))))
  by_cases c18 : r < 800
  · exact Or.inr (Or.inr (Or.inr (Or.inr (Or.inr (Or.inr (Or.inr (Or.inr (Or.inr (Or.inr (Or.inr (Or.inr (Or.inr (Or.inr (Or.inr (Or.inr (Or.inr (Or.inr (Or.inl ⟨⟨by linarith [not_lt.mp c17], c18⟩, bo18 r (by linarith [not_lt.mp c17]) c18, rb18 r (by linarith [not_lt.mp c17]) c18⟩))))))))))))))))))
  by_cases c19 : r < 900
  · exact Or.inr (Or.inr (Or.inr (Or.inr (Or.inr (Or.inr (Or.inr (Or.inr (Or.inr (Or.inr (Or.inr (Or.inr (Or.inr (Or.inr (Or.inr (Or.inr (Or.inr (Or.inr (Or.inr (Or.inl ⟨⟨by linarith [not_lt.mp c18], c19⟩, bo19 r (by linarith [not_lt.mp c18]) c19, rb19 r (by linarith [not_lt.mp c18]) c19⟩)))))))))))))))))))
  by_cases c20 : r < 1000
  · exact Or.inr (Or.inr (Or.inr (Or.inr (Or.inr (Or.inr (Or.inr (Or.inr (Or.inr (Or.inr (Or.inr (Or.inr (Or.inr (Or.inr (Or.inr (Or.inr (Or.inr (Or.inr (Or.inr (Or.inr (Or.inl ⟨⟨by linarith [not_lt.mp c19], c20⟩, bo20 r (by linarith [not_lt.mp c19]) c20, rb20 r (by linarith [not_lt.mp c19]) c20⟩))))))))))))))))))))
  exact Or.inr (Or.inr (Or.inr (Or.inr (Or.inr (Or.inr (Or.inr (Or.inr (Or.inr (Or.inr (Or.inr (Or.inr (Or.inr (Or.inr (Or.inr (Or.inr (Or.inr (Or.inr (Or.inr (Or.inr (Or.inr (⟨by linarith [not_lt.mp c20], bo21 r (by linarith [not_lt.mp c20]), rb21 r (by linarith [not_lt.mp c20])⟩)))))))))))))))))))))


/-- The bucketing CASE is deterministic: a return inside the interval of
bin `i` is assigned order `i`. -/
lemma bin_order_unique (r : ℚ) (i : ℕ) (hi : i < 22) (h : inBin i r) :
    bin_order r = i := by
  interval_cases i
  all_goals norm_num [inBin] at h
  · exact bo0 r h
  · exact bo1 r h.1 h.2
  · exact bo2 r h.1 h.2
  · exact bo3 r h.1 h.2
  · exact bo4 r h.1 h.2
  · exact bo5 r h.1 h.2
  · exact bo6 r h.1 h.2
  · exact bo7 r h.1 h.2
  · exact bo8 r h.1 h.2
  · exact bo9 r h.1 h.2
  · exact bo10 r h.1 h.2
  · exact bo11 r h.1 h.2
  · exact bo12 r h.1 h.2
  · exact bo13 r h.1 h.2
  · exact bo14 r h.1 h.2
  · exact bo15 r h.1 h.2
  · exact bo16 r h.1 h.2
  · exact bo17 r h.1 h.2
  · exact bo18 r h.1 h.2
  · exact bo19 r h.1 h.2
  · exact bo20 r h.1 h.2
  · exact bo21 r h

/-- `bin_order` is monotone in the return. -/
lemma bin_order_mono (r s : ℚ) (hrs : r ≤ s) : bin_order r ≤ bin_order s := by
  rcases bin_cases r with h|h|h|h|h|h|h|h|h|h|h|h|h|h|h|h|h|h|h|h|h|h
  all_goals rcases bin_cases s with g|g|g|g|g|g|g|g|g|g|g|g|g|g|g|g|g|g|g|g|g|g
  all_goals obtain ⟨hb, ho, -⟩ := h
  all_goals obtain ⟨gb, go, -⟩ := g
  all_goals try obtain ⟨hb1, hb2⟩ := hb
  all_goals try obtain ⟨gb1, gb2⟩ := gb
  all_goals rw [ho, go]
  all_goals first | omega | (exfalso; linarith)

/-- `bin_order` always lands inside the table. -/
lemma bin_order_lt (r : ℚ) : bin_order r < 22 := by
  rcases bin_cases r with h|h|h|h|h|h|h|h|h|h|h|h|h|h|h|h|h|h|h|h|h|h
  all_goals obtain ⟨-, ho, -⟩ := h
  all_goals rw [ho]
  all_goals omega

/-- The return always satisfies the interval of its assigned bin. -/
lemma bin_order_mem (r : ℚ) : inBin (bin_order r) r := by
  rcases bin_cases r with h|h|h|h|h|h|h|h|h|h|h|h|h|h|h|h|h|h|h|h|h|h
  all_goals obtain ⟨hb, ho, -⟩ := h
  all_goals rw [ho]
  all_goals norm_num [inBin]
  all_goals exact hb

/-- The label is the entry of the label table at the bin order. -/
lemma return_bin_getD (r : ℚ) : return_bin r = binLabels.getD (bin_order r) "" := by
  rcases bin_cases r with h|h|h|h|h|h|h|h|h|h|h|h|h|h|h|h|h|h|h|h|h|h
  all_goals obtain ⟨-, ho, hl⟩ := h
  all_goals rw [ho, hl]
  all_goals rfl

/-- The numeric two-digit label prefix agrees with the bin order. -/
lemma labelNum_return_bin (r : ℚ) : labelNum (return_bin r) = bin_order r := by
  rcases bin_cases r with h|h|h|h|h|h|h|h|h|h|h|h|h|h|h|h|h|h|h|h|h|h
  all_goals obtain ⟨-, ho, hl⟩ := h
  all_goals rw [ho, hl]
  all_goals decide

/-- C1: every real annual return percentage is assigned exactly one of the
fixed table of 22 labelled ordered intervals (one bin for returns at or
below -100, ten 10-wide bins covering -100 to 0, ten 100-wide bins
covering 0 to 1000, one bin for returns at or above 1000); the numeric
prefix of the assigned label always equals the `bin_order` value of the
parallel CASE expression, so the labels sort in order of increasing
return. -/
theorem c1_close_price_bucketing (r : ℚ) :
    bin_order r < 22 ∧
    inBin (bin_order r) r ∧
    (∀ i, i < 22 → inBin i r → i = bin_order r) ∧
    return_bin r = binLabels.getD (bin_order r) "" ∧
    return_bin r ∈ binLabels ∧
    labelNum (return_bin r) = bin_order r ∧
    (∀ s : ℚ, r ≤ s → bin_order r ≤ bin_order s) := by
  refine ⟨bin_order_lt r, bin_order_mem r, ?_, return_bin_getD r, ?_, labelNum_return_bin r, ?_⟩
  · intro i hi h
    exact (bin_order_unique r i hi h).symm
  · rw [return_bin_getD r]
    have h := bin_order_lt r
    interval_cases h : bin_order r
    all_goals decide
  · intro s hs
    exact bin_order_mono r s hs

/-- C1 witness: the theorem applied at the concrete return -95, with the
inner hypotheses discharged at concrete inputs. -/
theorem c1_close_price_bucketing_witness :
    bin_order (-95 : ℚ) = 1 ∧
    return_bin (-95 : ℚ) = "01. 下跌-100%至-90%" ∧
    labelNum (return_bin (-95 : ℚ)) = bin_order (-95 : ℚ) ∧
    bin_order (-95 : ℚ) ≤ bin_order (250 : ℚ) := by
  refine ⟨by decide, by decide, (c1_close_price_bucketing (-95)).2.2.2.2.2.1, ?_⟩
  exact (c1_close_price_bucketing (-95)).2.2.2.2.2.2 250 (by norm_num)

/-- C6: every query of the four pages computes the annual return
percentage as `((price - year_open) / year_open) * 100`; the price is
`year_close` in the three `app.py` queries, `year_high` in the two
high-page queries, and the selected `price_field` parameter
(`year_close` by default) in the four `probability.py` queries. -/
theorem c6_return_formula_consistent (o p : ℚ) :
    heatmapAnnualReturn o p = (p - o) / o * 100 ∧
    statSummaryAnnualReturn o p = heatmapAnnualReturn o p ∧
    detailAnnualRet o p = heatmapAnnualReturn o p ∧
    probPerfRet o p = heatmapAnnualReturn o p ∧
    probAltPerfRet o p = heatmapAnnualReturn o p ∧
    probMultiYearReturn o p = heatmapAnnualReturn o p ∧
    probDetailReturn o p = heatmapAnnualReturn o p ∧
    highAnnualMaxReturn o p = heatmapAnnualReturn o p ∧
    highSummaryMaxReturn o p = heatmapAnnualReturn o p :=
  ⟨rfl, rfl, rfl, rfl, rfl, rfl, rfl, rfl, rfl⟩

/-- C5: whenever reading a connection secret or creating the engine
fails, `get_engine` halts the page script with the static error text
and returns no engine. -/
theorem c5_get_engine_halts_on_failure (s : Secrets) (ce : String → Option String)
    (hfail : s.DB_PASSWORD = none ∨ s.PROJECT_REF = none ∨ s.POOLER_HOST = none ∨
      ∀ cs, ce cs = none) :
    get_engine s ce = .halted connFailMsg ∧ ∀ e, get_engine s ce ≠ .engine e := by
  have hh : get_engine s ce = .halted connFailMsg := by
    obtain ⟨dp, pr, ph⟩ := s
    rcases hfail with h | h | h | h
    · simp only at h; subst h; rfl
    · simp only at h; subst h; cases dp <;> rfl
    · simp only at h; subst h; cases dp <;> cases pr <;> rfl
    · cases dp <;> cases pr <;> cases ph <;> simp [get_engine, h]
  refine ⟨hh, ?_⟩
  intro e h'
  rw [hh] at h'
  exact EngineResult.noConfusion h'

/-- C5 witness: a store missing `DB_PASSWORD` halts even when engine
creation itself would succeed. -/
theorem c5_get_engine_halts_on_failure_witness :
    (Secrets.mk none (some "ref") (some "host")).DB_PASSWORD = none ∧
    get_engine ⟨none, some "ref", some "host"⟩ (fun cs => some cs) = .halted connFailMsg :=
  ⟨rfl, (c5_get_engine_halts_on_failure ⟨none, some "ref", some "host"⟩
      (fun cs => some cs) (Or.inl rfl)).1⟩

/-- C9: in the high-price variant, every row that passes the filter
(`year_open` and `year_high` non-null, `year_open > 0`) is assigned one
of the 11 upward bins, and a row whose `year_high` is below `year_open`
(a negative maximum return) is not excluded but lands in the first bin
`01. 上漲0-100%`, because the first CASE branch accepts every return
below 100. -/
theorem c9_high_negative_return_lands_first_bin (y : String) (t : AnnualRow)
    (o h : ℚ) (ho : t.year_open = some o) (hh : t.year_high = some h)
    (hf : highRowFilter y t = true) :
    return_bin_high (highAnnualMaxReturn o h) ∈ binLabelsHigh ∧
    1 ≤ bin_order_high (highAnnualMaxReturn o h) ∧
    bin_order_high (highAnnualMaxReturn o h) ≤ 11 ∧
    (h < o → return_bin_high (highAnnualMaxReturn o h) = "01. 上漲0-100%" ∧
      bin_order_high (highAnnualMaxReturn o h) = 1) := by
  simp only [highRowFilter, ho, hh, Bool.and_eq_true, decide_eq_true_eq,
    Option.getD_some, Option.isSome_some] at hf
  have hpos : 0 < o := hf.2
  refine ⟨?_, ?_, ?_, ?_⟩
  · rcases bin_cases_high (highAnnualMaxReturn o h) with g|g|g|g|g|g|g|g|g|g|g
    all_goals obtain ⟨-, -, hl⟩ := g
    all_goals rw [hl]
    all_goals decide
  · rcases bin_cases_high (highAnnualMaxReturn o h) with g|g|g|g|g|g|g|g|g|g|g
    all_goals obtain ⟨-, hon, -⟩ := g
    all_goals rw [hon]
    all_goals norm_num
  · rcases bin_cases_high (highAnnualMaxReturn o h) with g|g|g|g|g|g|g|g|g|g|g
    all_goals obtain ⟨-, hon, -⟩ := g
    all_goals rw [hon]
    all_goals norm_num
  · intro hlt
    have hr : highAnnualMaxReturn o h < 0 := by
      unfold highAnnualMaxReturn
      have : (h - o) / o < 0 := div_neg_of_neg_of_pos (by linarith) hpos
      linarith
    exact ⟨rbh1 _ (by linarith), boh1 _ (by linarith)⟩

/-- C9 witness: the concrete row with `year_open = 10`, `year_high = 5`
passes the filter and is bucketed into the first upward bin. -/
theorem c9_high_negative_return_lands_first_bin_witness :
    highRowFilter "2024" ⟨"2330.TW", "2024", some 10, some 8, some 5⟩ = true ∧
    return_bin_high (highAnnualMaxReturn 10 5) = "01. 上漲0-100%" ∧
    bin_order_high (highAnnualMaxReturn 10 5) = 1 := by
  refine ⟨by decide, ?_⟩
  exact (c9_high_negative_return_lands_first_bin "2024"
    ⟨"2330.TW", "2024", some 10, some 8, some 5⟩ 10 5 rfl rfl (by decide)).2.2.2
    (by norm_num)

lemma likeB_digits (p1 p2 p3 c1 c2 c3 e1 e2 : ℕ)
    (h1 : ¬ p1 = 37) (h1b : ¬ p1 = 95) (h2 : ¬ p2 = 37) (h2b : ¬ p2 = 95)
    (h3 : ¬ p3 = 37) (h3b : ¬ p3 = 95) :
    likeMatchB [p1, p2, p3, 95, 37] [c1, c2, c3, 95, e1, e2] =
      (decide (p1 = c1) && (decide (p2 = c2) && (decide (p3 = c3) && true))) := by
  show likeAuxB (11 + 1) _ _ = _
  rw [likeAuxB, if_neg h1, if_neg h1b]
  congr 1
  show likeAuxB (10 + 1) _ _ = _
  rw [likeAuxB, if_neg h2, if_neg h2b]
  congr 1
  show likeAuxB (9 + 1) _ _ = _
  rw [likeAuxB, if_neg h3, if_neg h3b]
  congr 1

/-- C10: assuming report months are encoded as the three-digit
local-calendar year offset, an underscore, and a zero-padded two-digit
month, the report-month window predicate of `app.py` (equal to the
previous year's month 12, or LIKE `'{Y}_%'`, lexicographically below
`'{Y}_12'`, of length at most 7) and the predicate of
`probability.py` (equal to the previous year's month 12, or LIKE
`'{Y}_%'` and at most `'{Y}_11'`) select exactly the same months:
December of the previous year through November of the analysis
year. -/
theorem c10_month_window_equiv (Y y m : ℕ) (hY1 : 101 ≤ Y) (hY2 : Y ≤ 999)
    (hy1 : 100 ≤ y) (hy2 : y ≤ 999) (hm1 : 1 ≤ m) (hm2 : m ≤ 12) :
    appMonthWindow Y (encodeMonthB y m) = probMonthWindow Y (encodeMonthB y m) ∧
    (appMonthWindow Y (encodeMonthB y m) = true ↔
      (y = Y - 1 ∧ m = 12) ∨ (y = Y ∧ m ≤ 11)) := by
  have hpat : yearPatB Y = [48 + Y / 100 % 10, 48 + Y / 10 % 10, 48 + Y % 10, 95, 37] := rfl
  have hsY12 : encodeMonthB Y 12 =
      [48 + Y / 100 % 10, 48 + Y / 10 % 10, 48 + Y % 10, 95, 49, 50] := rfl
  have hsY11 : encodeMonthB Y 11 =
      [48 + Y / 100 % 10, 48 + Y / 10 % 10, 48 + Y % 10, 95, 49, 49] := rfl
  have hsPrev : encodeMonthB (Y - 1) 12 =
      [48 + (Y - 1) / 100 % 10, 48 + (Y - 1) / 10 % 10, 48 + (Y - 1) % 10, 95, 49, 50] := rfl
  by_cases hm10 : m < 10
  · have hp : pad2B m = [48, 48 + m] := by unfold pad2B; rw [if_pos hm10]
    have hs : encodeMonthB y m =
        [48 + y / 100 % 10, 48 + y / 10 % 10, 48 + y % 10, 95, 48, 48 + m] := by
      unfold encodeMonthB nat3B; rw [hp]; rfl
    rw [hs]
    simp only [appMonthWindow, probMonthWindow, hpat, hsY12, hsY11, hsPrev]
    rw [likeB_digits _ _ _ _ _ _ _ _ (by omega) (by omega) (by omega) (by omega) (by omega) (by omega)]
    constructor
    · rw [Bool.eq_iff_iff]
      simp only [Bool.or_eq_true, Bool.and_eq_true, decide_eq_true_eq, beq_iff_eq,
        List.cons.injEq, and_true, lexLtB, lexLeB, List.length_cons, List.length_nil]
      simp
      all_goals omega
    · simp only [Bool.or_eq_true, Bool.and_eq_true, decide_eq_true_eq, beq_iff_eq,
        List.cons.injEq, and_true, lexLtB, lexLeB, List.length_cons, List.length_nil]
      simp
      all_goals omega
  · have hp : pad2B m = [48 + m / 10, 48 + m % 10] := by unfold pad2B; rw [if_neg hm10]
    have hs : encodeMonthB y m =
        [48 + y / 100 % 10, 48 + y / 10 % 10, 48 + y % 10, 95, 48 + m / 10, 48 + m % 10] := by
      unfold encodeMonthB nat3B; rw [hp]; rfl
    rw [hs]
    simp only [appMonthWindow, probMonthWindow, hpat, hsY12, hsY11, hsPrev]
    rw [likeB_digits _ _ _ _ _ _ _ _ (by omega) (by omega) (by omega) (by omega) (by omega) (by omega)]
    constructor
    · rw [Bool.eq_iff_iff]
      simp only [Bool.or_eq_true, Bool.and_eq_true, decide_eq_true_eq, beq_iff_eq,
        List.cons.injEq, and_true, lexLtB, lexLeB, List.length_cons, List.length_nil]
      simp
      all_goals omega
    · simp only [Bool.or_eq_true, Bool.and_eq_true, decide_eq_true_eq, beq_iff_eq,
        List.cons.injEq, and_true, lexLtB, lexLeB, List.length_cons, List.length_nil]
      simp
      all_goals omega

/-- C10 witness: the two predicates agree at year offset 113 on the
encoded month `112_12`, which both select. -/
theorem c10_month_window_equiv_witness :
    appMonthWindow 113 (encodeMonthB 112 12) = probMonthWindow 113 (encodeMonthB 112 12) ∧
    appMonthWindow 113 (encodeMonthB 112 12) = true := by
  have h := c10_month_window_equiv 113 112 12 (by norm_num) (by norm_num)
    (by norm_num) (by norm_num) (by norm_num) (by norm_num)
  exact ⟨h.1, h.2.mpr (Or.inl ⟨rfl, rfl⟩)⟩

lemma roundInt_agree (r : ℚ) (h : ¬ (r - ⌊r⌋ = 1 / 2)) :
    roundHalfAway r = roundHalfEven r := by
  have h0 : ((⌊r⌋ : ℚ)) ≤ r := Int.floor_le r
  have h1 : r < ⌊r⌋ + 1 := Int.lt_floor_add_one r
  unfold roundHalfAway roundHalfEven
  rcases lt_or_gt_of_ne h with hd | hd
  · by_cases hr : 0 ≤ r
    · rw [if_pos hr, if_pos hd]
      exact Int.floor_eq_iff.mpr ⟨by linarith, by linarith⟩
    · rw [if_neg hr, if_pos hd]
      have he : ⌊-r + 1 / 2⌋ = -⌊r⌋ :=
        Int.floor_eq_iff.mpr ⟨by push_cast; linarith, by push_cast; linarith⟩
      rw [he]
      omega
  · have hd' : ¬ (r - (⌊r⌋ : ℚ) < 1 / 2) := by linarith
    by_cases hr : 0 ≤ r
    · rw [if_pos hr, if_neg hd', if_pos hd]
      exact Int.floor_eq_iff.mpr ⟨by push_cast; linarith, by push_cast; linarith⟩
    · rw [if_neg hr, if_neg hd', if_pos hd]
      have he : ⌊-r + 1 / 2⌋ = -(⌊r⌋ + 1) :=
        Int.floor_eq_iff.mpr ⟨by push_cast; linarith, by push_cast; linarith⟩
      rw [he]
      omega

lemma round1_agree (q : ℚ) (h : ¬ isTie q) : round1Sql q = round1Py q := by
  unfold isTie at h
  unfold round1Sql round1Py
  rw [roundInt_agree (10 * q) h]

/-- C3 counterexample: the alternate Python path does not reproduce
the SQL aggregation: for a one-stock group the SQL standard deviation
is NULL while the Python path reports 0, and on a rounding tie the
mean differs because SQL rounds half away from zero while Python
rounds half to even. -/
theorem c3_counterexample :
    (sqlProbRow id 3 [50]).stdRet = none ∧
    (altProbRow id 3 [50]).stdRet = some 0 ∧
    sqlProbRow id 3 [50] ≠ altProbRow id 3 [50] ∧
    (sqlProbRow id 5 [0, 1/2]).meanRet = 3 / 10 ∧
    (altProbRow id 5 [0, 1/2]).meanRet = 1 / 5 := by
  refine ⟨rfl, rfl, ?_, ?_, ?_⟩
  · intro hcon
    have h2 := congrArg ProbRow.stdRet hcon
    rw [show (sqlProbRow id 3 [50]).stdRet = none from rfl,
      show (altProbRow id 3 [50]).stdRet = some 0 from rfl] at h2
    exact Option.noConfusion h2
  · norm_num [sqlProbRow, round1Sql, roundHalfAway, mean]
  · norm_num [altProbRow, round1Py, roundHalfEven, mean]

/-- C3 (amended): for hit-count groups of at least two stocks whose
statistics do not sit exactly on a 1-decimal rounding boundary, the
alternate Python path produces exactly the SQL row; the two paths
diverge only in the standard deviation of a one-stock group (NULL
vs 0) and in the rounding rule at exact halves. -/
theorem c3_sql_vs_alt_rows (sq : ℚ → ℚ) (hits : ℕ) (rets : List ℚ)
    (hne : rets ≠ []) (hlen : 2 ≤ rets.length)
    (h1 : ¬ isTie (mean rets))
    (h2 : ¬ isTie (percentileCont (1 / 2) rets))
    (h3 : ¬ isTie (((rets.filter (fun x => decide (20 < x))).length : ℚ) * 100 /
      (rets.length : ℚ)))
    (h4 : ¬ isTie (((rets.filter (fun x => decide (100 < x))).length : ℚ) * 100 /
      (rets.length : ℚ)))
    (h5 : ¬ isTie (listMin rets)) (h6 : ¬ isTie (listMax rets))
    (h7 : ¬ isTie (STDDEV sq rets)) :
    sqlProbRow sq hits rets = altProbRow sq hits rets := by
  unfold sqlProbRow altProbRow
  simp only [ProbRow.mk.injEq]
  refine ⟨trivial, trivial, round1_agree _ h1, ?_, ?_, ?_, round1_agree _ h5,
    round1_agree _ h6, ?_⟩
  · rw [round1_agree _ h2, percentileCont_half rets hne]
  · rw [round1_agree _ h3]
    congr 1
    ring
  · rw [round1_agree _ h4]
    congr 1
    ring
  · rw [if_pos hlen, if_pos hlen, round1_agree _ h7, STDDEV_eq_specStd]

/-- C3 witness: the amended equivalence applied to the concrete group
with returns 10 and 30. -/
theorem c3_sql_vs_alt_rows_witness :
    2 ≤ ([10, 30] : List ℚ).length ∧
    sqlProbRow id 7 [10, 30] = altProbRow id 7 [10, 30] := by
  have hsort : sortQ ([10, 30] : List ℚ) = [10, 30] := by norm_num [sortQ, insortQ]
  have e2 : percentileCont (1 / 2) ([10, 30] : List ℚ) = 20 := by
    unfold percentileCont interpAt
    rw [hsort]
    norm_num [List.getD]
  refine ⟨by norm_num, ?_⟩
  refine c3_sql_vs_alt_rows id 7 [10, 30] (by simp) (by norm_num) ?_ ?_ ?_ ?_ ?_ ?_ ?_
  · norm_num [isTie, mean]
  · rw [e2]; norm_num [isTie]
  · norm_num [isTie, List.filter]
  · norm_num [isTie, List.filter]
  · norm_num [isTie, listMin]
  · norm_num [isTie, listMax]
  · norm_num [isTie, STDDEV, sqlVar]

/-! ### Percent-encoding facts -/

lemma char_toNat_lt (c : Char) : c.toNat < 1114112 := by
  rcases c.valid with h | ⟨h1, h2⟩
  · have h' : c.val.toNat < (55296 : UInt32).toNat := h
    have e : (55296 : UInt32).toNat = 55296 := rfl
    unfold Char.toNat
    omega
  · have h' : c.val.toNat < (1114112 : UInt32).toNat := h2
    have e : (1114112 : UInt32).toNat = 1114112 := rfl
    unfold Char.toNat
    omega

lemma utf8Bytes_lt (c : Char) (b : ℕ) (hb : b ∈ utf8Bytes c) : b < 256 := by
  have hc := char_toNat_lt c
  unfold utf8Bytes at hb
  split_ifs at hb with h1 h2 h3
  all_goals simp only [List.mem_cons, List.mem_singleton, List.not_mem_nil, or_false] at hb
  · omega
  · rcases hb with hb | hb <;> omega
  · rcases hb with hb | hb | hb <;> omega
  · rcases hb with hb | hb | hb | hb <;> omega

lemma encByte_safe (b : ℕ) (hb : b < 256) :
    (encByte true b).all isQuerySafeChar = true := by
  interval_cases b <;> decide

lemma quote_data (p : String) :
    (quote p).data =
      (p.data.map (fun c => ((utf8Bytes c).map (encByte true)).flatten)).flatten := rfl

/-- Every character of a `quote`-encoded value is query-safe: the
encoded prompt cannot contain `?`, `&`, `=`, `#` or a space, so it sits
inside the `q=` parameter as one value. -/
lemma quote_querySafe (p : String) : (quote p).data.all isQuerySafeChar = true := by
  rw [List.all_eq_true]
  intro x hx
  rw [quote_data, List.mem_flatten] at hx
  obtain ⟨l, hl, hxl⟩ := hx
  rw [List.mem_map] at hl
  obtain ⟨c, hc, rfl⟩ := hl
  rw [List.mem_flatten] at hxl
  obtain ⟨le, hle, hxle⟩ := hxl
  rw [List.mem_map] at hle
  obtain ⟨b, hb, rfl⟩ := hle
  have hs := encByte_safe b (utf8Bytes_lt c b hb)
  rw [List.all_eq_true] at hs
  exact hs x hxle

/-- C7 counterexample: the ChatGPT button of `app.py` and all three AI
buttons of the high page link plain site URLs with no query string, so
not every AI-chat link carries the prompt as a query parameter. -/
theorem c7_counterexample :
    appChatgptUrl "請分析以上數據" = "https://chatgpt.com/" ∧
    hasQueryParam (appChatgptUrl "請分析以上數據") = false ∧
    highClaudeUrl "請分析以上數據" = "https://claude.ai/new" ∧
    hasQueryParam (highClaudeUrl "請分析以上數據") = false :=
  ⟨rfl, by decide, rfl, by decide⟩

/-- C7 (amended): exactly three AI-chat links (probability ChatGPT,
app Claude, timing-lab ChatGPT) carry the prompt, URL-encoded by
`urllib.parse.quote`, as the `q` query parameter; the encoded value
contains only query-safe characters; the remaining AI links (app
ChatGPT, probability DeepSeek, and the high page's three buttons) are
plain URLs with no query string at all. -/
theorem c7_prompt_links (p : String) :
    probChatgptUrl p = "https://chatgpt.com/?q=" ++ quote p ∧
    appClaudeUrl p = "https://claude.ai/new?q=" ++ quote p ∧
    timingChatgptUrl p = "https://chatgpt.com/?q=" ++ quote p ∧
    (quote p).data.all isQuerySafeChar = true ∧
    hasQueryParam (appChatgptUrl p) = false ∧
    hasQueryParam (probDeepseekUrl p) = false ∧
    hasQueryParam (highChatgptUrl p) = false ∧
    hasQueryParam (highClaudeUrl p) = false ∧
    hasQueryParam (highDeepseekUrl p) = false :=
  ⟨rfl, rfl, rfl, quote_querySafe p, rfl, rfl, rfl, rfl, rfl⟩

/-- C4 counterexample: a single cold-cache view of the main dashboard
page performs four database round trips, not at most one. -/
theorem c4_counterexample : appPageCalls.length = 4 ∧ 1 < appPageCalls.length := by
  decide

/-- C4 (amended): a single page view triggers up to four database
round trips (main page four, probability two, high page two, timing
lab one); the cached queries are keyed and reused for one hour, but the
main and probability pages each run one uncached detail query on every
view. -/
theorem c4_page_round_trips :
    appPageCalls.length = 4 ∧
    probabilityPageCalls.length = 2 ∧
    highPageCalls.length = 2 ∧
    timingPageCalls.length = 1 ∧
    (appPageCalls.filter (fun c => !c.cached)).map DbCall.name = ["detail_query"] ∧
    (probabilityPageCalls.filter (fun c => !c.cached)).map DbCall.name = ["detail_query"] ∧
    highPageCalls.all DbCall.cached = true ∧
    timingPageCalls.all DbCall.cached = true ∧
    cacheTTLSeconds = 3600 := by
  decide

end StockLab
